import Mathlib

/-!
# The one-shot check runner (`cmd/agent/app/check.go`)

A shallow embedding of `checkCmd.RunE`, `runCheck` and `getMetrics`.

The command is sequential code over process-wide collaborators (configuration,
logger, hostname utility, tagger, aggregator, auto-discovery catalog, status
renderer, the clock and the checks themselves).  The collaborators are not part
of the file; they are taken as an environment `Env` of state transformers over
an arbitrary world type `W`, so every statement below is quantified over every
possible behaviour of every collaborator.

The embedding is instrumented: each collaborator call the code makes, and each
write of the code to standard output, is appended to an event log in program
order, together with the value the call returned.  The readings of the clock
(`time.Now`, `time.Since`) act on the world but are not logged.

Every collaborator is a total function: a call that panics or never returns is
outside the model.
-/

namespace CheckCmd

/-! ## Data model -/

/-- Go `error` value that is not nil; `msg` is what `Error()` returns, which is
also what the verbs `%v` and `%s` of `fmt.Printf` print for it. A possibly nil
`error` is an `Option GoError`. -/
structure GoError where
  msg : String
deriving DecidableEq, Repr

/-- Go `fmt.Errorf` with a format string that has no verb. -/
def Errorf (format : String) : GoError := ⟨format⟩

/-- Go `map[string]int64` as returned by `GetMetricStats`, as an association
list; the nil map and the empty map are both `[]`. -/
abbrev MetricStats := List (String × Int)

/-- Modelled from the spec: one tuple of `RunStats`, "(duration, error or none,
warnings, metric-stat snapshot)", that is the four arguments of one call of
`check.Stats.Add` (package `pkg/collector/check`, absent from the sources). -/
structure StatsEntry where
  duration : Int
  err : Option GoError
  warnings : List GoError
  metricStats : MetricStats
deriving DecidableEq, Repr

/-- Modelled from the spec: `check.Stats` (package `pkg/collector/check`, absent
from the sources), the "per-instance accumulator: ordered sequence of (duration,
error or none, warnings, metric-stat snapshot) tuples, one entry per
invocation". -/
structure Stats (C : Type) where
  check : C
  entries : List StatsEntry
deriving DecidableEq, Repr

/-- Modelled from the spec: `check.NewStats` (absent from the sources),
"constructs a fresh `RunStats`" for the instance. -/
def NewStats {C : Type} (c : C) : Stats C := ⟨c, []⟩

/-- Modelled from the spec: `check.Stats.Add` (absent from the sources), "append
`(now − t0, err, warnings, metricStats)` to the accumulator". -/
def Stats.Add {C : Type} (s : Stats C) (t : Int) (err : Option GoError)
    (warnings : List GoError) (metricStats : MetricStats) : Stats C :=
  { s with entries := s.entries ++ [⟨t, err, warnings, metricStats⟩] }

/-- The value `&serializer.Serializer{Forwarder: common.Forwarder}`. -/
structure Serializer (F : Type) where
  Forwarder : F
deriving DecidableEq, Repr

/-- Signed 64-bit wrap-around, the arithmetic of Go `int64` (and so of
`time.Duration`). -/
def wrapInt64 (x : Int) : Int := (x + 2 ^ 63) % 2 ^ 64 - 2 ^ 63

/-- The constant `time.Millisecond`, in nanoseconds. -/
def Millisecond : Int := 1000000

/-- The constant `checkCmdFlushInterval`. -/
def checkCmdFlushInterval : Int := 10000000000

/-- The events of an execution, in program order: one per collaborator call
(with the arguments that vary and the value returned) and one per write of the
code to standard output. `C` is the type of check instances (`check.Check`),
`A` the aggregator handle (`*aggregator.BufferedAggregator`), `P` the items of
the aggregator buffers. -/
inductive Event (C A P : Type) where
  /-- Go `common.SetupConfig(confFilePath)` -/
  | setupConfig (path : String) (ret : Option GoError)
  /-- Go `config.Datadog.GetString(key)` -/
  | getString (key : String) (ret : String)
  /-- Go `config.SetupLogger(level, "", "", false, false, "")` -/
  | setupLogger (level : String) (ret : Option GoError)
  /-- Go `cmd.Help()` -/
  | help
  /-- Go `util.GetHostname()` -/
  | getHostname (ret : String × Option GoError)
  /-- Go `tagger.Init()` -/
  | taggerInit (ret : Option GoError)
  /-- Construction of `&serializer.Serializer{Forwarder: common.Forwarder}` -/
  | newSerializer
  /-- Go `aggregator.InitAggregatorWithFlushInterval(s, hostname, interval)` -/
  | initAggregator (hostname : String) (interval : Int) (ret : A)
  /-- Go `common.SetupAutoConfig(confd)` -/
  | setupAutoConfig (confd : String)
  /-- Go `common.AC.GetChecksByName(name)` -/
  | getChecksByName (name : String) (ret : List C)
  /-- Go `c.Run()` -/
  | run (c : C) (ret : Option GoError)
  /-- Go `c.GetWarnings()` -/
  | getWarnings (c : C) (ret : List GoError)
  /-- Go `c.GetMetricStats()` -/
  | getMetricStats (c : C) (ret : MetricStats × Option GoError)
  /-- Go `time.Sleep(d)`, `d` in nanoseconds -/
  | sleep (ns : Int)
  /-- Go `agg.GetSeries()` -/
  | getSeries (agg : A) (ret : List P)
  /-- Go `agg.GetSketches()` -/
  | getSketches (agg : A) (ret : List P)
  /-- Go `agg.GetServiceChecks()` -/
  | getServiceChecks (agg : A) (ret : List P)
  /-- Go `agg.GetEvents()` -/
  | getEvents (agg : A) (ret : List P)
  /-- Go `status.GetCheckStatus(c, s)` -/
  | getCheckStatus (c : C) (s : Stats C) (ret : String × Option GoError)
  /-- One `fmt.Printf` or `fmt.Println` call; `text` is what it writes -/
  | print (text : String)
deriving DecidableEq, Repr

/-- The collaborators, as state transformers over the world `W`. A collaborator
that returns `(value, error)` in Go returns that pair here. -/
structure Env (W C A P F : Type) where
  /-- Go `common.SetupConfig` -/
  SetupConfig : String → W → Option GoError × W
  /-- Go `config.Datadog.GetString` -/
  GetString : String → W → String × W
  /-- Go `config.SetupLogger` -/
  SetupLogger : String → String → String → Bool → Bool → String → W → Option GoError × W
  /-- Go `cmd.Help` of the cobra command; it prints the help text -/
  Help : W → Option GoError × W
  /-- Go `util.GetHostname` -/
  GetHostname : W → (String × Option GoError) × W
  /-- Go `tagger.Init` -/
  TaggerInit : W → Option GoError × W
  /-- Package variable `common.Forwarder` -/
  Forwarder : W → F
  /-- Go `aggregator.InitAggregatorWithFlushInterval` -/
  InitAggregatorWithFlushInterval : Serializer F → String → Int → W → A × W
  /-- Go `common.SetupAutoConfig` -/
  SetupAutoConfig : String → W → Unit × W
  /-- Go `common.AC.GetChecksByName` -/
  GetChecksByName : String → W → List C × W
  /-- Go `check.Check.Run` -/
  Run : C → W → Option GoError × W
  /-- Go `check.Check.GetWarnings` -/
  GetWarnings : C → W → List GoError × W
  /-- Go `check.Check.GetMetricStats` -/
  GetMetricStats : C → W → (MetricStats × Option GoError) × W
  /-- Go `time.Now`, as a reading in nanoseconds -/
  Now : W → Int × W
  /-- Go `time.Since`, a duration in nanoseconds -/
  Since : Int → W → Int × W
  /-- Go `time.Sleep` -/
  Sleep : Int → W → Unit × W
  /-- Go `(*BufferedAggregator).GetSeries` -/
  GetSeries : A → W → List P × W
  /-- Go `(*BufferedAggregator).GetSketches` -/
  GetSketches : A → W → List P × W
  /-- Go `(*BufferedAggregator).GetServiceChecks` -/
  GetServiceChecks : A → W → List P × W
  /-- Go `(*BufferedAggregator).GetEvents` -/
  GetEvents : A → W → List P × W
  /-- Go `json.MarshalIndent(v, prefix, indent)` -/
  MarshalIndent : List P → String → String → String × Option GoError
  /-- Go `status.GetCheckStatus` -/
  GetCheckStatus : C → Stats C → W → (String × Option GoError) × W

/-- The state of an execution: the world of the collaborators, the event log,
and the package-level variables of `check.go` (`confFilePath` is declared in
a sibling file of the package). -/
structure St (W C A P : Type) where
  world : W
  out : List (Event C A P)
  confFilePath : String
  checkRate : Bool
  checkName : String
  checkDelay : Int
  logLevel : String

section Model

variable {W C A P F : Type}

/-- Calls a collaborator: runs it on the world and logs the event built from
the value it returned. -/
def St.call {α : Type} (st : St W C A P) (f : W → α × W) (ev : α → Event C A P) :
    α × St W C A P :=
  ((f st.world).1, { st with world := (f st.world).2, out := st.out ++ [ev (f st.world).1] })

/-- A step of the code that calls no collaborator but is logged. -/
def St.emit (st : St W C A P) (e : Event C A P) : St W C A P :=
  { st with out := st.out ++ [e] }

/-- Go `fmt.Printf` with the format already expanded to `text`. -/
def St.Printf (st : St W C A P) (text : String) : St W C A P :=
  st.emit (.print text)

/-- Go `fmt.Println` of one string. -/
def St.Println (st : St W C A P) (text : String) : St W C A P :=
  st.emit (.print (text ++ "\n"))

/-- One iteration of the loop `for i < times` of `runCheck`. -/
def runCheckBody (env : Env W C A P F) (c : C) (x : Stats C × St W C A P) :
    Stats C × St W C A P :=
  -- t0 := time.Now()
  let t0 := (env.Now x.2.world).1
  let st := { x.2 with world := (env.Now x.2.world).2 }
  -- err := c.Run()
  let r1 := st.call (env.Run c) (Event.run c)
  -- warnings := c.GetWarnings()
  let r2 := r1.2.call (env.GetWarnings c) (Event.getWarnings c)
  -- mStats, _ := c.GetMetricStats()
  let r3 := r2.2.call (env.GetMetricStats c) (Event.getMetricStats c)
  -- s.Add(time.Since(t0), err, warnings, mStats)
  let d := (env.Since t0 r3.2.world).1
  let st := { r3.2 with world := (env.Since t0 r3.2.world).2 }
  (x.1.Add d r1.1 r2.1 r3.1.1, st)

/-- The loop `for i < times { ...; i++ }` of `runCheck`, by the number of
iterations left (`times - i`). -/
def runCheckLoop (env : Env W C A P F) (c : C) :
    Nat → Stats C × St W C A P → Stats C × St W C A P
  | 0, x => x
  | n + 1, x => runCheckLoop env c n (runCheckBody env c x)

/-- Go `runCheck(c, agg)`. -/
def runCheck (env : Env W C A P F) (c : C) (_agg : A) (st : St W C A P) :
    Stats C × St W C A P :=
  let s := NewStats c
  let times := if st.checkRate then 2 else 1
  runCheckLoop env c times (s, st)

/-- Go `getMetrics(agg)`. -/
def getMetrics (env : Env W C A P F) (agg : A) (st : St W C A P) : St W C A P :=
  let r := st.call (env.GetSeries agg) (Event.getSeries agg)
  let series := r.1
  let st := if series.length ≠ 0 then
      (r.2.Println "Series: ").Println (env.MarshalIndent series "" "  ").1
    else r.2
  let r := st.call (env.GetSketches agg) (Event.getSketches agg)
  let sketches := r.1
  let st := if sketches.length ≠ 0 then
      (r.2.Println "Sketches: ").Println (env.MarshalIndent sketches "" "  ").1
    else r.2
  let r := st.call (env.GetServiceChecks agg) (Event.getServiceChecks agg)
  let serviceChecks := r.1
  let st := if serviceChecks.length ≠ 0 then
      (r.2.Println "Service Checks: ").Println (env.MarshalIndent serviceChecks "" "  ").1
    else r.2
  let r := st.call (env.GetEvents agg) (Event.getEvents agg)
  let events := r.1
  let st := if events.length ≠ 0 then
      (r.2.Println "Events: ").Println (env.MarshalIndent events "" "  ").1
    else r.2
  st

/-- The body of the loop `for _, c := range cs` of `RunE`. -/
def instanceBody (env : Env W C A P F) (agg : A) (c : C) (st : St W C A P) : St W C A P :=
  -- s := runCheck(c, agg)
  let r := runCheck env c agg st
  -- time.Sleep(time.Duration(checkDelay) * time.Millisecond)
  let st := (r.2.call (env.Sleep (wrapInt64 (r.2.checkDelay * Millisecond)))
    (fun _ => Event.sleep (wrapInt64 (r.2.checkDelay * Millisecond)))).2
  -- getMetrics(agg)
  let st := getMetrics env agg st
  -- checkStatus, _ := status.GetCheckStatus(c, s)
  let r2 := st.call (env.GetCheckStatus c r.1) (Event.getCheckStatus c r.1)
  -- fmt.Println(string(checkStatus))
  r2.2.Println r2.1.1

/-- The loop `for _, c := range cs` of `RunE`. -/
def instanceLoop (env : Env W C A P F) (agg : A) : List C → St W C A P → St W C A P
  | [], st => st
  | c :: cs, st => instanceLoop env agg cs (instanceBody env agg c st)

/-- Go `checkCmd.RunE(cmd, args)`: the error returned (`none` is nil) and the
final state. -/
def RunE (env : Env W C A P F) (args : List String) (st : St W C A P) :
    Option GoError × St W C A P :=
  -- err := common.SetupConfig(confFilePath)
  let r := st.call (env.SetupConfig st.confFilePath) (Event.setupConfig st.confFilePath)
  match r.1 with
  | some err => (some err, r.2.Printf ("Cannot setup config, exiting: " ++ err.msg ++ "\n"))
  | none =>
  let st := r.2
  let st :=
    if st.logLevel = "" then
      if st.confFilePath ≠ "" then
        let g := st.call (env.GetString "log_level") (Event.getString "log_level")
        { g.2 with logLevel := g.1 }
      else
        { st with logLevel := "off" }
    else st
  -- err = config.SetupLogger(logLevel, "", "", false, false, "")
  let r := st.call (env.SetupLogger st.logLevel "" "" false false "")
    (Event.setupLogger st.logLevel)
  match r.1 with
  | some err => (some err, r.2.Printf ("Cannot setup logger, exiting: " ++ err.msg ++ "\n"))
  | none =>
  let st := r.2
  match args with
  | [] =>
    -- cmd.Help(); return nil
    (none, (st.call env.Help (fun _ => Event.help)).2)
  | arg0 :: _ =>
  let st := { st with checkName := arg0 }
  -- hostname, err := util.GetHostname()
  let r := st.call env.GetHostname Event.getHostname
  match r.1.2 with
  | some err => (some err, r.2.Printf ("Cannot get hostname, exiting: " ++ err.msg ++ "\n"))
  | none =>
  let hostname := r.1.1
  let st := r.2
  -- err = tagger.Init()
  let r := st.call env.TaggerInit Event.taggerInit
  match r.1 with
  | some err => (some err, r.2.Printf ("Unable to start tagging system: " ++ err.msg))
  | none =>
  let st := r.2
  -- s := &serializer.Serializer{Forwarder: common.Forwarder}
  let s : Serializer F := { Forwarder := env.Forwarder st.world }
  let st := st.emit Event.newSerializer
  -- agg := aggregator.InitAggregatorWithFlushInterval(s, hostname, 10000000000)
  let r := st.call (env.InitAggregatorWithFlushInterval s hostname 10000000000)
    (Event.initAggregator hostname 10000000000)
  let agg := r.1
  let st := r.2
  -- common.SetupAutoConfig(config.Datadog.GetString("confd_path"))
  let g := st.call (env.GetString "confd_path") (Event.getString "confd_path")
  let st := (g.2.call (env.SetupAutoConfig g.1) (fun _ => Event.setupAutoConfig g.1)).2
  -- cs := common.AC.GetChecksByName(checkName)
  let r := st.call (env.GetChecksByName st.checkName) (Event.getChecksByName st.checkName)
  let cs := r.1
  let st := r.2
  if cs.length = 0 then
    (some (Errorf "no check found"), st.Println "no check found")
  else
  let st := if cs.length > 1 then
      st.Println "Multiple check instances found, running each of them"
    else st
  (none, instanceLoop env agg cs st)

/-! ## The stages of `getMetrics` and `RunE`

The same code as `getMetrics` and `RunE`, cut into consecutive parts, so that
the functions can be analysed one part at a time; `getMetrics_eq` and `RunE_eq`
below show that the parts compose to the functions above. -/

/-- The shape shared by the four blocks of `getMetrics`: read a buffer, and
if it is not empty print its label and its JSON. Used to reason about
`getMetrics` one block at a time. -/
def drainBlock (env : Env W C A P F) (read : W → List P × W) (ev : List P → Event C A P)
    (label : String) (st : St W C A P) : St W C A P :=
  if (st.call read ev).1.length ≠ 0 then
    ((st.call read ev).2.Println label).Println (env.MarshalIndent (st.call read ev).1 "" "  ").1
  else (st.call read ev).2

/-- The block `if logLevel == "" { ... }` of `RunE`. -/
def resolveLogLevel (env : Env W C A P F) (st : St W C A P) : St W C A P :=
  if st.logLevel = "" then
    if st.confFilePath ≠ "" then
      let g := st.call (env.GetString "log_level") (Event.getString "log_level")
      { g.2 with logLevel := g.1 }
    else
      { st with logLevel := "off" }
  else st

/-- The part of `RunE` from the construction of the serializer to the end. -/
def afterTagger (env : Env W C A P F) (hostname : String) (st : St W C A P) :
    Option GoError × St W C A P :=
  let s : Serializer F := { Forwarder := env.Forwarder st.world }
  let st := st.emit Event.newSerializer
  let r := st.call (env.InitAggregatorWithFlushInterval s hostname 10000000000)
    (Event.initAggregator hostname 10000000000)
  let agg := r.1
  let st := r.2
  let g := st.call (env.GetString "confd_path") (Event.getString "confd_path")
  let st := (g.2.call (env.SetupAutoConfig g.1) (fun _ => Event.setupAutoConfig g.1)).2
  let r := st.call (env.GetChecksByName st.checkName) (Event.getChecksByName st.checkName)
  let cs := r.1
  let st := r.2
  if cs.length = 0 then
    (some (Errorf "no check found"), st.Println "no check found")
  else
  let st := if cs.length > 1 then
      st.Println "Multiple check instances found, running each of them"
    else st
  (none, instanceLoop env agg cs st)

/-- The part of `RunE` from the test of `len(args)` to the end. -/
def afterLogger (env : Env W C A P F) (args : List String) (st : St W C A P) :
    Option GoError × St W C A P :=
  match args with
  | [] => (none, (st.call env.Help (fun _ => Event.help)).2)
  | arg0 :: _ =>
  let st := { st with checkName := arg0 }
  let r := st.call env.GetHostname Event.getHostname
  match r.1.2 with
  | some err => (some err, r.2.Printf ("Cannot get hostname, exiting: " ++ err.msg ++ "\n"))
  | none =>
  let hostname := r.1.1
  let st := r.2
  let r := st.call env.TaggerInit Event.taggerInit
  match r.1 with
  | some err => (some err, r.2.Printf ("Unable to start tagging system: " ++ err.msg))
  | none => afterTagger env hostname r.2

/-- The function `RunE` with its later parts folded into `resolveLogLevel` and
`afterLogger`. -/
def RunE_staged (env : Env W C A P F) (args : List String) (st : St W C A P) :
    Option GoError × St W C A P :=
  let r := st.call (env.SetupConfig st.confFilePath) (Event.setupConfig st.confFilePath)
  match r.1 with
  | some err => (some err, r.2.Printf ("Cannot setup config, exiting: " ++ err.msg ++ "\n"))
  | none =>
  let st := resolveLogLevel env r.2
  let r := st.call (env.SetupLogger st.logLevel "" "" false false "")
    (Event.setupLogger st.logLevel)
  match r.1 with
  | some err => (some err, r.2.Printf ("Cannot setup logger, exiting: " ++ err.msg ++ "\n"))
  | none => afterLogger env args r.2

/-! ## Observations on the event log -/

/-- The `Run()` invocation an event is, if it is one: the instance and the
error returned. -/
def Event.runOf : Event C A P → Option (C × Option GoError)
  | .run c ret => some (c, ret)
  | _ => none

/-- The value returned by `GetMetricStats()`, if the event is such a call. -/
def Event.metricStatsOf : Event C A P → Option (MetricStats × Option GoError)
  | .getMetricStats _ ret => some ret
  | _ => none

/-- The value returned by `GetWarnings()`, if the event is such a call. -/
def Event.warningsOf : Event C A P → Option (List GoError)
  | .getWarnings _ ret => some ret
  | _ => none

/-- The text written, if the event is a write to standard output. -/
def Event.printed : Event C A P → Option String
  | .print text => some text
  | _ => none

/-- The steps of the per-instance protocol: an invocation of `Run()`, the
settle sleep, the four accessor reads that make up one drain of the aggregator,
and the status rendering. -/
inductive Phase (C : Type) where
  | run (c : C)
  | sleep (ns : Int)
  | getSeries
  | getSketches
  | getServiceChecks
  | getEvents
  | status (c : C)
deriving DecidableEq, Repr

/-- The step of the per-instance protocol an event is, if it is one. -/
def Event.phase : Event C A P → Option (Phase C)
  | .run c _ => some (.run c)
  | .sleep ns => some (.sleep ns)
  | .getSeries _ _ => some .getSeries
  | .getSketches _ _ => some .getSketches
  | .getServiceChecks _ _ => some .getServiceChecks
  | .getEvents _ _ => some .getEvents
  | .getCheckStatus c _ _ => some (.status c)
  | _ => none

/-- The protocol of one instance, in the words of the spec: all its `Run()`
invocations, then one sleep, then one drain (series, sketches, service checks,
events), then one status render. -/
def instancePhases (times : Nat) (ns : Int) (c : C) : List (Phase C) :=
  List.replicate times (.run c) ++
    [.sleep ns, .getSeries, .getSketches, .getServiceChecks, .getEvents, .status c]

/-- The rank of an event in the bootstrap order, if it has one: configuration
setup 0, logger setup 1, hostname resolution 2, tagger init 3, serializer
construction 4, aggregator init 5, auto-discovery setup 6, check lookup 7, and
8 for every `Run()` of a check. -/
def Event.stage : Event C A P → Option Nat
  | .setupConfig _ _ => some 0
  | .setupLogger _ _ => some 1
  | .getHostname _ => some 2
  | .taggerInit _ => some 3
  | .newSerializer => some 4
  | .initAggregator _ _ _ => some 5
  | .setupAutoConfig _ => some 6
  | .getChecksByName _ _ => some 7
  | .run _ _ => some 8
  | _ => none

/-- The ranks of a complete execution that invokes `Run()` `k` times. -/
def stageOrder (k : Nat) : List Nat := List.range 8 ++ List.replicate k 8

/-- The accumulator handed to the status renderer, if the event is a call of
`status.GetCheckStatus`. -/
def Event.statusArg : Event C A P → Option (Stats C)
  | .getCheckStatus _ s _ => some s
  | _ => none

/-- The level passed to `config.SetupLogger`, if the event is such a call. -/
def Event.loggerLevel : Event C A P → Option String
  | .setupLogger level _ => some level
  | _ => none

/-- The log level the spec prescribes for logger setup: the user-supplied
`logLevel` when it is not empty; otherwise the configured `log_level` when the
config path is not empty; otherwise "off". The configured value is what
`config.Datadog.GetString("log_level")` returns once the configuration is set
up. -/
def resolvedLevel (env : Env W C A P F) (st : St W C A P) : String :=
  if st.logLevel ≠ "" then st.logLevel
  else if st.confFilePath ≠ "" then
    (env.GetString "log_level" (env.SetupConfig st.confFilePath st.world).2).1
  else "off"

/-- The events of a successful configuration setup and of the resolution of
the log level after it: the configuration is read only when the level is taken
from it. -/
def configEvents (env : Env W C A P F) (st : St W C A P) : List (Event C A P) :=
  .setupConfig st.confFilePath none ::
    (if st.logLevel = "" ∧ st.confFilePath ≠ "" then
      [.getString "log_level"
        (env.GetString "log_level" (env.SetupConfig st.confFilePath st.world).2).1]
    else [])

/-- What the loop over the located instances `cs` leaves in the log, seen
through each observation; `ss` are the accumulators handed to the status
renderer, one per instance and in the order of `cs`. -/
def LoopLog (checkRate : Bool) (checkDelay : Int) (cs : List C) (evs : List (Event C A P)) :
    Prop :=
  ∃ ss : List (Stats C),
    evs.filterMap Event.phase = cs.flatMap (instancePhases (if checkRate then 2 else 1)
      (wrapInt64 (checkDelay * Millisecond))) ∧
    evs.filterMap Event.stage = List.replicate (cs.length * (if checkRate then 2 else 1)) 8 ∧
    evs.filterMap Event.statusArg = ss ∧
    ss.map (fun s => s.check) = cs ∧
    (∀ s ∈ ss, s.entries.length = (if checkRate then 2 else 1)) ∧
    evs.filterMap Event.runOf =
      ss.flatMap (fun s => s.entries.map (fun e => (s.check, e.err))) ∧
    evs.filterMap Event.loggerLevel = [] ∧
    Event.help ∉ evs

/-- The events from the construction of the serializer to the check lookup. -/
def lookupEvents (hostname : String) (agg : A) (confd name : String) (cs : List C) :
    List (Event C A P) :=
  [.newSerializer, .initAggregator hostname 10000000000 agg, .getString "confd_path" confd,
   .setupAutoConfig confd, .getChecksByName name cs]

/-- The informational line printed when several instances are located. -/
def multipleNotice (cs : List C) : List (Event C A P) :=
  if cs.length > 1 then [.print "Multiple check instances found, running each of them\n"]
  else []

/-- What the code prints for one aggregator buffer, in the words of the spec:
nothing for an empty buffer, otherwise the label and then the JSON of the
buffer with empty prefix and two-space indentation, each on a line of its
own (the error of the marshaller is dropped). -/
def renderSection (env : Env W C A P F) (label : String) (buf : List P) :
    List (Event C A P) :=
  if buf.isEmpty then []
  else [.print (label ++ "\n"), .print ((env.MarshalIndent buf "" "  ").1 ++ "\n")]

end Model

/-! ## A concrete world, for evaluating the model -/

namespace Demo

/-- The world of the concrete collaborators: a clock, the series and events
buffers of the aggregator, and the number of `Run()` calls so far. -/
structure World where
  clock : Int
  series : List String
  events : List String
  runs : Nat
deriving DecidableEq, Repr

/-- Concrete collaborators. `fail` names the bootstrap step that fails
("config", "logger", "hostname", "tagger"; anything else: none fails). The
catalog has one instance of `foo`, two of `baz`, one of `qux` whose `Run()`
and `GetMetricStats()` both report an error, and nothing else. Every `Run()`
submits one series sample, except that the instances of `baz` submit an event;
the accessors of the aggregator drain its buffers. -/
def env (fail : String) : Env World String Unit String Unit where
  SetupConfig := fun _ w => (if fail = "config" then some ⟨"config failed"⟩ else none, w)
  GetString := fun key w => (if key = "log_level" then "info" else "/etc/datadog/conf.d", w)
  SetupLogger := fun _ _ _ _ _ _ w =>
    (if fail = "logger" then some ⟨"logger failed"⟩ else none, w)
  Help := fun w => (none, w)
  GetHostname := fun w =>
    (if fail = "hostname" then ("", some ⟨"hostname failed"⟩) else ("host1", none), w)
  TaggerInit := fun w => (if fail = "tagger" then some ⟨"tagger failed"⟩ else none, w)
  Forwarder := fun _ => ()
  InitAggregatorWithFlushInterval := fun _ _ _ w => ((), w)
  SetupAutoConfig := fun _ w => ((), w)
  GetChecksByName := fun name w =>
    (if name = "foo" then ["foo:0"]
     else if name = "baz" then ["baz:0", "baz:1"]
     else if name = "qux" then ["qux:0"]
     else [], w)
  Run := fun c w =>
    (if c = "qux:0" then some ⟨"run failed"⟩ else none,
     if c = "baz:0" ∨ c = "baz:1" then
       { w with clock := w.clock + 5, events := w.events ++ ["e"], runs := w.runs + 1 }
     else
       { w with clock := w.clock + 5, series := w.series ++ ["s"], runs := w.runs + 1 })
  GetWarnings := fun _ w => ([], w)
  GetMetricStats := fun c w =>
    (if c = "qux:0" then ([("MetricSamples", 1)], some ⟨"no sender"⟩)
     else ([("MetricSamples", 1)], none), w)
  Now := fun w => (w.clock, w)
  Since := fun t0 w => (w.clock - t0, w)
  Sleep := fun d w => ((), { w with clock := w.clock + max d 0 })
  GetSeries := fun _ w => (w.series, { w with series := [] })
  GetSketches := fun _ w => ([], w)
  GetServiceChecks := fun _ w => ([], w)
  GetEvents := fun _ w => (w.events, { w with events := [] })
  MarshalIndent := fun buf pre indent =>
    (pre ++ "[" ++ String.join (buf.map (fun x => "\n" ++ pre ++ indent ++ x)) ++ "\n" ++ pre ++ "]",
     none)
  GetCheckStatus := fun c s w =>
    ((c ++ (if s.entries.all (fun e => e.err.isNone) then " OK" else " ERROR"), none), w)

/-- The initial state: an empty log, an empty aggregator, and the package
variables as bound from the command line. -/
def st (confFilePath : String) (checkRate : Bool) (checkDelay : Int) (logLevel : String) :
    St World String Unit String where
  world := ⟨0, [], [], 0⟩
  out := []
  confFilePath := confFilePath
  checkRate := checkRate
  checkName := ""
  checkDelay := checkDelay
  logLevel := logLevel

end Demo

/-! ## Theorems -/

section Theorems

variable {W C A P F : Type}

/-! ### Frame lemmas: the package variables are left alone -/

theorem runCheckLoop_frame (env : Env W C A P F) (c : C) (n : Nat) (x : Stats C × St W C A P) :
    (runCheckLoop env c n x).2.confFilePath = x.2.confFilePath ∧
    (runCheckLoop env c n x).2.checkRate = x.2.checkRate ∧
    (runCheckLoop env c n x).2.checkName = x.2.checkName ∧
    (runCheckLoop env c n x).2.checkDelay = x.2.checkDelay ∧
    (runCheckLoop env c n x).2.logLevel = x.2.logLevel := by
  induction n generalizing x with
  | zero => simp [runCheckLoop]
  | succ n ih =>
    rw [runCheckLoop]
    obtain ⟨h1, h2, h3, h4, h5⟩ := ih (runCheckBody env c x)
    rw [h1, h2, h3, h4, h5]
    simp [runCheckBody, St.call]

/-- What the loop of `runCheck` appends to the log and to the accumulator: `n`
entries, `n` invocations of `Run()` on `c`, and entry by entry the values the
three calls of that iteration returned. -/
theorem runCheckLoop_spec (env : Env W C A P F) (c : C) (n : Nat) (x : Stats C × St W C A P) :
    ∃ (evs : List (Event C A P)) (es : List StatsEntry),
      (runCheckLoop env c n x).2.out = x.2.out ++ evs ∧
      (runCheckLoop env c n x).1.check = x.1.check ∧
      (runCheckLoop env c n x).1.entries = x.1.entries ++ es ∧
      es.length = n ∧
      evs.filterMap Event.runOf = es.map (fun e => (c, e.err)) ∧
      es.map (fun e => e.metricStats) = (evs.filterMap Event.metricStatsOf).map Prod.fst ∧
      es.map (fun e => e.warnings) = evs.filterMap Event.warningsOf ∧
      evs.filterMap Event.phase = List.replicate n (.run c) ∧
      evs.filterMap Event.stage = List.replicate n 8 ∧
      evs.filterMap Event.statusArg = [] ∧
      evs.filterMap Event.printed = [] ∧
      evs.filterMap Event.loggerLevel = [] ∧
      Event.help ∉ evs := by
  induction n generalizing x with
  | zero => exact ⟨[], [], by simp [runCheckLoop]⟩
  | succ n ih =>
    obtain ⟨evs, es, h1, h2, h3, h4, h5, h7, h8, h9, h10, h11, h12, h13, h14⟩ :=
      ih (runCheckBody env c x)
    refine ⟨[.run c (env.Run c (env.Now x.2.world).2).1,
        .getWarnings c (env.GetWarnings c (env.Run c (env.Now x.2.world).2).2).1,
        .getMetricStats c (env.GetMetricStats c
          (env.GetWarnings c (env.Run c (env.Now x.2.world).2).2).2).1] ++ evs,
      (runCheckBody env c x).1.entries.drop x.1.entries.length ++ es, ?_⟩
    rw [runCheckLoop, h1, h2, h3]
    simp [runCheckBody, St.call, Stats.Add, List.filterMap_append, Event.runOf,
      Event.metricStatsOf, Event.warningsOf, Event.phase, Event.stage, Event.statusArg,
      Event.printed, Event.loggerLevel, List.replicate_succ, h4, h5, h7, h8, h9, h10, h11,
      h12, h13, h14]

theorem runCheck_frame (env : Env W C A P F) (c : C) (agg : A) (st : St W C A P) :
    (runCheck env c agg st).2.confFilePath = st.confFilePath ∧
    (runCheck env c agg st).2.checkRate = st.checkRate ∧
    (runCheck env c agg st).2.checkName = st.checkName ∧
    (runCheck env c agg st).2.checkDelay = st.checkDelay ∧
    (runCheck env c agg st).2.logLevel = st.logLevel :=
  runCheckLoop_frame env c _ (NewStats c, st)

/-! ### The drain -/

/-- The function `getMetrics` is its four blocks in sequence. -/
theorem getMetrics_eq (env : Env W C A P F) (agg : A) (st : St W C A P) :
    getMetrics env agg st =
      drainBlock env (env.GetEvents agg) (Event.getEvents agg) "Events: "
        (drainBlock env (env.GetServiceChecks agg) (Event.getServiceChecks agg) "Service Checks: "
          (drainBlock env (env.GetSketches agg) (Event.getSketches agg) "Sketches: "
            (drainBlock env (env.GetSeries agg) (Event.getSeries agg) "Series: " st))) := rfl

theorem drainBlock_out (env : Env W C A P F) (read : W → List P × W)
    (ev : List P → Event C A P) (label : String) (st : St W C A P) :
    (drainBlock env read ev label st).out =
      st.out ++ ([ev (read st.world).1] ++ renderSection env label (read st.world).1) := by
  by_cases h : (read st.world).1 = []
  · simp [drainBlock, renderSection, St.call, h]
  · simp [drainBlock, renderSection, St.call, St.Println, St.emit, h]

theorem drainBlock_frame (env : Env W C A P F) (read : W → List P × W)
    (ev : List P → Event C A P) (label : String) (st : St W C A P) :
    (drainBlock env read ev label st).confFilePath = st.confFilePath ∧
    (drainBlock env read ev label st).checkRate = st.checkRate ∧
    (drainBlock env read ev label st).checkName = st.checkName ∧
    (drainBlock env read ev label st).checkDelay = st.checkDelay ∧
    (drainBlock env read ev label st).logLevel = st.logLevel := by
  simp only [drainBlock, St.call, St.Println, St.emit]
  split_ifs <;> simp

/-- The events of `getMetrics`: the four reads in order, each followed at once
by the section of its buffer. -/
theorem getMetrics_out (env : Env W C A P F) (agg : A) (st : St W C A P) :
    ∃ b1 b2 b3 b4 : List P,
      (getMetrics env agg st).out = st.out ++
        ([.getSeries agg b1] ++ renderSection env "Series: " b1 ++
         [.getSketches agg b2] ++ renderSection env "Sketches: " b2 ++
         [.getServiceChecks agg b3] ++ renderSection env "Service Checks: " b3 ++
         [.getEvents agg b4] ++ renderSection env "Events: " b4) := by
  have h := getMetrics_eq env agg st
  rw [h, drainBlock_out, drainBlock_out, drainBlock_out, drainBlock_out]
  simp only [List.append_assoc]
  exact ⟨_, _, _, _, rfl⟩

theorem getMetrics_frame (env : Env W C A P F) (agg : A) (st : St W C A P) :
    (getMetrics env agg st).confFilePath = st.confFilePath ∧
    (getMetrics env agg st).checkRate = st.checkRate ∧
    (getMetrics env agg st).checkName = st.checkName ∧
    (getMetrics env agg st).checkDelay = st.checkDelay ∧
    (getMetrics env agg st).logLevel = st.logLevel := by
  rw [getMetrics_eq]
  obtain ⟨a1, a2, a3, a4, a5⟩ := drainBlock_frame env (env.GetSeries agg)
    (Event.getSeries agg) "Series: " st
  obtain ⟨b1, b2, b3, b4, b5⟩ := drainBlock_frame env (env.GetSketches agg)
    (Event.getSketches agg) "Sketches: "
    (drainBlock env (env.GetSeries agg) (Event.getSeries agg) "Series: " st)
  obtain ⟨c1, c2, c3, c4, c5⟩ := drainBlock_frame env (env.GetServiceChecks agg)
    (Event.getServiceChecks agg) "Service Checks: "
    (drainBlock env (env.GetSketches agg) (Event.getSketches agg) "Sketches: "
      (drainBlock env (env.GetSeries agg) (Event.getSeries agg) "Series: " st))
  obtain ⟨d1, d2, d3, d4, d5⟩ := drainBlock_frame env (env.GetEvents agg)
    (Event.getEvents agg) "Events: "
    (drainBlock env (env.GetServiceChecks agg) (Event.getServiceChecks agg) "Service Checks: "
      (drainBlock env (env.GetSketches agg) (Event.getSketches agg) "Sketches: "
        (drainBlock env (env.GetSeries agg) (Event.getSeries agg) "Series: " st)))
  exact ⟨by rw [d1, c1, b1, a1], by rw [d2, c2, b2, a2], by rw [d3, c3, b3, a3],
    by rw [d4, c4, b4, a4], by rw [d5, c5, b5, a5]⟩

@[simp]
theorem renderSection_phase (env : Env W C A P F) (label : String) (buf : List P) :
    (renderSection env label buf).filterMap Event.phase = [] := by
  unfold renderSection; split_ifs <;> simp [Event.phase]

@[simp]
theorem renderSection_stage (env : Env W C A P F) (label : String) (buf : List P) :
    (renderSection env label buf).filterMap Event.stage = [] := by
  unfold renderSection; split_ifs <;> simp [Event.stage]

@[simp]
theorem renderSection_statusArg (env : Env W C A P F) (label : String) (buf : List P) :
    (renderSection env label buf).filterMap Event.statusArg = [] := by
  unfold renderSection; split_ifs <;> simp [Event.statusArg]

@[simp]
theorem renderSection_runOf (env : Env W C A P F) (label : String) (buf : List P) :
    (renderSection env label buf).filterMap Event.runOf = [] := by
  unfold renderSection; split_ifs <;> simp [Event.runOf]

@[simp]
theorem renderSection_loggerLevel (env : Env W C A P F) (label : String)
    (buf : List P) : (renderSection env label buf).filterMap Event.loggerLevel = [] := by
  unfold renderSection; split_ifs <;> simp [Event.loggerLevel]

@[simp]
theorem help_not_mem_renderSection (env : Env W C A P F) (label : String)
    (buf : List P) : Event.help ∉ renderSection env label buf := by
  unfold renderSection; split_ifs <;> simp

/-! ### One instance, and the loop over the instances -/

theorem instanceBody_frame (env : Env W C A P F) (agg : A) (c : C) (st : St W C A P) :
    (instanceBody env agg c st).confFilePath = st.confFilePath ∧
    (instanceBody env agg c st).checkRate = st.checkRate ∧
    (instanceBody env agg c st).checkName = st.checkName ∧
    (instanceBody env agg c st).checkDelay = st.checkDelay ∧
    (instanceBody env agg c st).logLevel = st.logLevel := by
  obtain ⟨h1, h2, h3, h4, h5⟩ := runCheck_frame env c agg st
  simp only [instanceBody, St.call, St.Println, St.emit]
  refine ⟨?_, ?_, ?_, ?_, ?_⟩
  · rw [(getMetrics_frame env agg _).1]; exact h1
  · rw [(getMetrics_frame env agg _).2.1]; exact h2
  · rw [(getMetrics_frame env agg _).2.2.1]; exact h3
  · rw [(getMetrics_frame env agg _).2.2.2.1]; exact h4
  · rw [(getMetrics_frame env agg _).2.2.2.2]; exact h5

/-- The events of one pass of the loop over the instances, seen through each
observation. -/
theorem instanceBody_spec (env : Env W C A P F) (agg : A) (c : C) (st : St W C A P) :
    ∃ (evs : List (Event C A P)) (s : Stats C),
      (instanceBody env agg c st).out = st.out ++ evs ∧
      evs.filterMap Event.phase = instancePhases (if st.checkRate then 2 else 1)
        (wrapInt64 (st.checkDelay * Millisecond)) c ∧
      evs.filterMap Event.stage = List.replicate (if st.checkRate then 2 else 1) 8 ∧
      evs.filterMap Event.statusArg = [s] ∧
      s.check = c ∧
      s.entries.length = (if st.checkRate then 2 else 1) ∧
      evs.filterMap Event.runOf = s.entries.map (fun e => (c, e.err)) ∧
      evs.filterMap Event.loggerLevel = [] ∧
      Event.help ∉ evs := by
  obtain ⟨evs, es, h1, h2, h3, h4, h5, -, -, h9, h10, h11, -, h13, h14⟩ :=
    runCheckLoop_spec env c (if st.checkRate then 2 else 1) (NewStats c, st)
  have hd := (runCheck_frame env c agg st).2.2.2.1
  obtain ⟨b1, b2, b3, b4, hm⟩ := getMetrics_out env agg
    (((runCheck env c agg st).2.call
      (env.Sleep (wrapInt64 ((runCheck env c agg st).2.checkDelay * Millisecond)))
      (fun _ => Event.sleep (wrapInt64 ((runCheck env c agg st).2.checkDelay * Millisecond)))).2)
  have h1' : (runCheck env c agg st).2.out = st.out ++ evs := h1
  have h3' : (runCheck env c agg st).1.entries = es := by
    simpa [runCheck, NewStats] using h3
  have hout : ∃ ret txt, (instanceBody env agg c st).out = st.out ++ (evs ++
      ([.sleep (wrapInt64 (st.checkDelay * Millisecond))] ++
      ([.getSeries agg b1] ++ renderSection env "Series: " b1 ++
         [.getSketches agg b2] ++ renderSection env "Sketches: " b2 ++
         [.getServiceChecks agg b3] ++ renderSection env "Service Checks: " b3 ++
         [.getEvents agg b4] ++ renderSection env "Events: " b4) ++
      [.getCheckStatus c (runCheck env c agg st).1 ret, .print txt])) := by
    simp only [St.call] at hm
    simp only [instanceBody, St.call, St.Println, St.emit]
    rw [hm]
    simp only [h1', hd, List.append_assoc]
    exact ⟨_, _, rfl⟩
  obtain ⟨ret, txt, hout⟩ := hout
  refine ⟨_, (runCheck env c agg st).1, hout, ?_, ?_, ?_, h2, ?_, ?_, ?_, ?_⟩
  · simp [List.filterMap_append, h9, Event.phase, instancePhases]
  · simp [List.filterMap_append, h10, Event.stage]
  · simp [List.filterMap_append, h11, Event.statusArg]
  · rw [h3', h4]
  · simp [List.filterMap_append, h5, h3', Event.runOf]
  · simp [List.filterMap_append, h13, Event.loggerLevel]
  · simp [h14]

theorem instanceLoop_frame (env : Env W C A P F) (agg : A) (cs : List C) (st : St W C A P) :
    (instanceLoop env agg cs st).confFilePath = st.confFilePath ∧
    (instanceLoop env agg cs st).checkRate = st.checkRate ∧
    (instanceLoop env agg cs st).checkName = st.checkName ∧
    (instanceLoop env agg cs st).checkDelay = st.checkDelay ∧
    (instanceLoop env agg cs st).logLevel = st.logLevel := by
  induction cs generalizing st with
  | nil => simp [instanceLoop]
  | cons c cs ih =>
    rw [instanceLoop]
    obtain ⟨h1, h2, h3, h4, h5⟩ := ih (instanceBody env agg c st)
    obtain ⟨k1, k2, k3, k4, k5⟩ := instanceBody_frame env agg c st
    exact ⟨h1.trans k1, h2.trans k2, h3.trans k3, h4.trans k4, h5.trans k5⟩

/-- The events of the loop over the instances, seen through each observation;
`ss` are the accumulators handed to the status renderer, one per instance. -/
theorem instanceLoop_spec (env : Env W C A P F) (agg : A) (cs : List C) (st : St W C A P) :
    ∃ (evs : List (Event C A P)) (ss : List (Stats C)),
      (instanceLoop env agg cs st).out = st.out ++ evs ∧
      evs.filterMap Event.phase = cs.flatMap (instancePhases (if st.checkRate then 2 else 1)
        (wrapInt64 (st.checkDelay * Millisecond))) ∧
      evs.filterMap Event.stage = List.replicate (cs.length * (if st.checkRate then 2 else 1)) 8 ∧
      evs.filterMap Event.statusArg = ss ∧
      ss.map (fun s => s.check) = cs ∧
      (∀ s ∈ ss, s.entries.length = (if st.checkRate then 2 else 1)) ∧
      evs.filterMap Event.runOf = ss.flatMap (fun s => s.entries.map (fun e => (s.check, e.err))) ∧
      evs.filterMap Event.loggerLevel = [] ∧
      Event.help ∉ evs := by
  induction cs generalizing st with
  | nil => exact ⟨[], [], by simp [instanceLoop]⟩
  | cons c cs ih =>
    obtain ⟨evs1, s, a1, a2, a3, a4, a5, a6, a7, a8, a9⟩ := instanceBody_spec env agg c st
    obtain ⟨evs2, ss, b1, b2, b3, b4, b5, b6, b7, b8, b9⟩ := ih (instanceBody env agg c st)
    obtain ⟨-, k2, -, k4, -⟩ := instanceBody_frame env agg c st
    rw [k2, k4] at b2
    rw [k2] at b3 b6
    refine ⟨evs1 ++ evs2, s :: ss, ?_, ?_, ?_, ?_, ?_, ?_, ?_, ?_, by simp [a9, b9]⟩
    · rw [instanceLoop, b1, a1, List.append_assoc]
    · rw [List.filterMap_append, a2, b2, List.flatMap_cons]
    · rw [List.filterMap_append, a3, b3, ← List.replicate_add, List.length_cons]
      congr 1; ring
    · rw [List.filterMap_append, a4, b4]; rfl
    · simp [a5, b5]
    · intro s' hs'
      rcases List.mem_cons.mp hs' with h | h
      · rw [h]; exact a6
      · exact b6 s' h
    · rw [List.filterMap_append, a7, b7, List.flatMap_cons, a5]
    · rw [List.filterMap_append, a8, b8]; rfl

/-! ### The shape of an execution of the command -/

/-- The staged function is `RunE`. -/
theorem RunE_eq (env : Env W C A P F) (args : List String) (st : St W C A P) :
    RunE env args st = RunE_staged env args st := by
  unfold RunE RunE_staged afterLogger afterTagger resolveLogLevel
  rfl

/-- The two ways the part of `RunE` after tagger init can go. -/
theorem afterTagger_shape (env : Env W C A P F) (hostname : String) (st : St W C A P) :
    ∃ (agg : A) (confd : String) (cs : List C),
      (cs = [] ∧ (afterTagger env hostname st).1 = some (Errorf "no check found") ∧
        (afterTagger env hostname st).2.out =
          st.out ++ (lookupEvents hostname agg confd st.checkName cs ++
            [.print "no check found\n"])) ∨
      (cs ≠ [] ∧ (afterTagger env hostname st).1 = none ∧
        ∃ evs, (afterTagger env hostname st).2.out =
          st.out ++ (lookupEvents hostname agg confd st.checkName cs ++
            (multipleNotice cs ++ evs)) ∧
          LoopLog st.checkRate st.checkDelay cs evs) := by
  let w1 := (env.InitAggregatorWithFlushInterval ⟨env.Forwarder st.world⟩ hostname
    10000000000 st.world)
  let g := env.GetString "confd_path" w1.2
  let w3 := (env.SetupAutoConfig g.1 g.2).2
  let r := env.GetChecksByName st.checkName w3
  let st3 : St W C A P := { st with
    world := r.2,
    out := st.out ++ lookupEvents hostname w1.1 g.1 st.checkName r.1 }
  let st4 : St W C A P := { st3 with out := st3.out ++ multipleNotice r.1 }
  have hres : afterTagger env hostname st =
      if r.1.length = 0 then (some (Errorf "no check found"), st3.Println "no check found")
      else (none, instanceLoop env w1.1 r.1 st4) := by
    simp only [afterTagger, St.call, St.emit, St.Println, lookupEvents, multipleNotice,
      List.append_assoc, List.singleton_append, List.cons_append, List.nil_append, st3, st4,
      r, w3, g, w1]
    split_ifs <;> simp
  refine ⟨w1.1, g.1, r.1, ?_⟩
  by_cases hcs : r.1 = []
  · left
    have hl : r.1.length = 0 := by simp [hcs]
    rw [hres, if_pos hl]
    exact ⟨hcs, rfl, by simp [St.Println, St.emit, st3]⟩
  · right
    have hl : ¬ r.1.length = 0 := by simpa using hcs
    rw [hres, if_neg hl]
    obtain ⟨evs, ss, h1, h2, h3, h4, h5, h6, h7, h8, h9⟩ :=
      instanceLoop_spec env w1.1 r.1 st4
    exact ⟨hcs, rfl, evs, by rw [h1]; simp [st4, st3], ss, h2, h3, h4, h5, h6, h7, h8, h9⟩

/-- The five ways the part of `RunE` after logger setup can go. -/
theorem afterLogger_shape (env : Env W C A P F) (args : List String) (st : St W C A P) :
    (args = [] ∧ (afterLogger env args st).1 = none ∧
      (afterLogger env args st).2.out = st.out ++ [.help]) ∨
    (∃ a rest h e, args = a :: rest ∧ (afterLogger env args st).1 = some e ∧
      (afterLogger env args st).2.out = st.out ++ [.getHostname (h, some e),
        .print ("Cannot get hostname, exiting: " ++ e.msg ++ "\n")]) ∨
    (∃ a rest h e, args = a :: rest ∧ (afterLogger env args st).1 = some e ∧
      (afterLogger env args st).2.out = st.out ++ [.getHostname (h, none),
        .taggerInit (some e), .print ("Unable to start tagging system: " ++ e.msg)]) ∨
    (∃ a rest h agg confd, args = a :: rest ∧
      (afterLogger env args st).1 = some (Errorf "no check found") ∧
      (afterLogger env args st).2.out = st.out ++ ([.getHostname (h, none), .taggerInit none] ++
        (lookupEvents h agg confd a [] ++ [.print "no check found\n"]))) ∨
    (∃ a rest h agg confd cs evs, args = a :: rest ∧ cs ≠ [] ∧
      (afterLogger env args st).1 = none ∧
      (afterLogger env args st).2.out = st.out ++ ([.getHostname (h, none), .taggerInit none] ++
        (lookupEvents h agg confd a cs ++ (multipleNotice cs ++ evs))) ∧
      LoopLog st.checkRate st.checkDelay cs evs) := by
  cases args with
  | nil => exact Or.inl ⟨rfl, rfl, rfl⟩
  | cons a rest =>
    right
    rcases hh : (env.GetHostname st.world) with ⟨⟨h, oe⟩, w1⟩
    cases oe with
    | some e =>
      left
      exact ⟨a, rest, h, e, rfl, by simp [afterLogger, St.call, hh],
        by simp [afterLogger, St.call, St.Printf, St.emit, hh]⟩
    | none =>
      right
      rcases ht : env.TaggerInit w1 with ⟨ot, w2⟩
      cases ot with
      | some e =>
        left
        exact ⟨a, rest, h, e, rfl, by simp [afterLogger, St.call, hh, ht],
          by simp [afterLogger, St.call, St.Printf, St.emit, hh, ht]⟩
      | none =>
        right
        have hres : afterLogger env (a :: rest) st = afterTagger env h
            { st with world := w2, checkName := a,
                      out := st.out ++ [.getHostname (h, none), .taggerInit none] } := by
          simp [afterLogger, St.call, hh, ht]
        rw [hres]
        obtain ⟨agg, confd, cs, hc | hc⟩ := afterTagger_shape env h
            { st with world := w2, checkName := a,
                      out := st.out ++ [.getHostname (h, none), .taggerInit none] }
        · obtain ⟨h1, h2, h3⟩ := hc
          subst h1
          exact Or.inl ⟨a, rest, h, agg, confd, rfl, h2, by rw [h3]; simp⟩
        · obtain ⟨h1, h2, evs, h3, h4⟩ := hc
          exact Or.inr ⟨a, rest, h, agg, confd, cs, evs, rfl, h1, h2, by rw [h3]; simp, h4⟩

/-- What the resolution of the log level does to the state. -/
theorem resolveLogLevel_spec (env : Env W C A P F) (st : St W C A P) :
    (resolveLogLevel env st).logLevel =
      (if st.logLevel ≠ "" then st.logLevel
       else if st.confFilePath ≠ "" then (env.GetString "log_level" st.world).1 else "off") ∧
    (resolveLogLevel env st).out = st.out ++
      (if st.logLevel = "" ∧ st.confFilePath ≠ "" then
        [.getString "log_level" (env.GetString "log_level" st.world).1] else []) ∧
    (resolveLogLevel env st).checkRate = st.checkRate ∧
    (resolveLogLevel env st).checkDelay = st.checkDelay := by
  unfold resolveLogLevel
  by_cases h1 : st.logLevel = "" <;> by_cases h2 : st.confFilePath = "" <;>
    simp [h1, h2, St.call]

/-- The seven ways an execution of the command can go, with the log each one
leaves. -/
theorem RunE_shape (env : Env W C A P F) (args : List String) (st : St W C A P)
    (h0 : st.out = []) :
    (∃ e, (RunE env args st).1 = some e ∧ (RunE env args st).2.out =
      [.setupConfig st.confFilePath (some e),
       .print ("Cannot setup config, exiting: " ++ e.msg ++ "\n")]) ∨
    (∃ e, (RunE env args st).1 = some e ∧ (RunE env args st).2.out = configEvents env st ++
      [.setupLogger (resolvedLevel env st) (some e),
       .print ("Cannot setup logger, exiting: " ++ e.msg ++ "\n")]) ∨
    (args = [] ∧ (RunE env args st).1 = none ∧ (RunE env args st).2.out =
      configEvents env st ++ [.setupLogger (resolvedLevel env st) none, .help]) ∨
    (∃ a rest h e, args = a :: rest ∧ (RunE env args st).1 = some e ∧
      (RunE env args st).2.out = configEvents env st ++
        [.setupLogger (resolvedLevel env st) none, .getHostname (h, some e),
         .print ("Cannot get hostname, exiting: " ++ e.msg ++ "\n")]) ∨
    (∃ a rest h e, args = a :: rest ∧ (RunE env args st).1 = some e ∧
      (RunE env args st).2.out = configEvents env st ++
        [.setupLogger (resolvedLevel env st) none, .getHostname (h, none),
         .taggerInit (some e), .print ("Unable to start tagging system: " ++ e.msg)]) ∨
    (∃ a rest h agg confd, args = a :: rest ∧
      (RunE env args st).1 = some (Errorf "no check found") ∧
      (RunE env args st).2.out = configEvents env st ++
        ([.setupLogger (resolvedLevel env st) none, .getHostname (h, none), .taggerInit none] ++
        (lookupEvents h agg confd a [] ++ [.print "no check found\n"]))) ∨
    (∃ a rest h agg confd cs evs, args = a :: rest ∧ cs ≠ [] ∧
      (RunE env args st).1 = none ∧
      (RunE env args st).2.out = configEvents env st ++
        ([.setupLogger (resolvedLevel env st) none, .getHostname (h, none), .taggerInit none] ++
        (lookupEvents h agg confd a cs ++ (multipleNotice cs ++ evs))) ∧
      LoopLog st.checkRate st.checkDelay cs evs) := by
  rw [RunE_eq]
  rcases hc : env.SetupConfig st.confFilePath st.world with ⟨oc, w1⟩
  cases oc with
  | some e =>
    left
    exact ⟨e, by simp [RunE_staged, St.call, hc],
      by simp [RunE_staged, St.call, St.Printf, St.emit, hc, h0]⟩
  | none =>
    right
    simp only [RunE_staged, St.call, hc, h0, List.nil_append]
    obtain ⟨hL, hO, hR, hD⟩ := resolveLogLevel_spec env
      { st with world := w1, out := [.setupConfig st.confFilePath none] }
    have hL' : (resolveLogLevel env
        { st with world := w1, out := [.setupConfig st.confFilePath none] }).logLevel =
        resolvedLevel env st := by
      rw [hL]; simp [resolvedLevel, hc]
    have hO' : (resolveLogLevel env
        { st with world := w1, out := [.setupConfig st.confFilePath none] }).out =
        configEvents env st := by
      rw [hO]; simp [configEvents, hc]
    simp only [] at hR hD
    generalize resolveLogLevel env
      { st with world := w1, out := [.setupConfig st.confFilePath none] } = st2
      at hL' hO' hR hD ⊢
    rcases hl : env.SetupLogger st2.logLevel "" "" false false "" st2.world with ⟨ol, w2⟩
    cases ol with
    | some e =>
      left
      exact ⟨e, rfl, by simp [St.Printf, St.emit, hO', hL']⟩
    | none =>
      right
      simp only []
      rcases afterLogger_shape env args
        { st2 with world := w2, out := st2.out ++ [.setupLogger st2.logLevel none] } with
        ⟨h1, h2, h3⟩ | ⟨a, rest, h, e, h1, h2, h3⟩ | ⟨a, rest, h, e, h1, h2, h3⟩ |
        ⟨a, rest, h, agg, confd, h1, h2, h3⟩ | ⟨a, rest, h, agg, confd, cs, evs, h1, h2, h3, h4, h5⟩
      · exact Or.inl ⟨h1, h2, by rw [h3]; simp [hO', hL']⟩
      · exact Or.inr (Or.inl ⟨a, rest, h, e, h1, h2, by rw [h3]; simp [hO', hL']⟩)
      · exact Or.inr (Or.inr (Or.inl ⟨a, rest, h, e, h1, h2, by rw [h3]; simp [hO', hL']⟩))
      · exact Or.inr (Or.inr (Or.inr (Or.inl
          ⟨a, rest, h, agg, confd, h1, h2, by rw [h3]; simp [hO', hL']⟩)))
      · refine Or.inr (Or.inr (Or.inr (Or.inr
          ⟨a, rest, h, agg, confd, cs, evs, h1, h2, h3, by rw [h4]; simp [hO', hL'], ?_⟩)))
        simpa [hR, hD] using h5

/-! ### Observations of the fixed parts of the log -/

theorem LoopLog.stage_eq {checkRate : Bool} {checkDelay : Int} {cs : List C}
    {evs : List (Event C A P)} (h : LoopLog checkRate checkDelay cs evs)
    {e : Event C A P} (he : e ∈ evs) {n : Nat} (hs : e.stage = some n) : n = 8 := by
  obtain ⟨ss, -, h2, -⟩ := h
  have hm : n ∈ evs.filterMap Event.stage := List.mem_filterMap.mpr ⟨e, he, hs⟩
  rw [h2] at hm
  exact (List.mem_replicate.mp hm).2

@[simp]
theorem mem_configEvents (env : Env W C A P F) (st : St W C A P) (e : Event C A P) :
    e ∈ configEvents env st ↔
      e = .setupConfig st.confFilePath none ∨
      ((st.logLevel = "" ∧ st.confFilePath ≠ "") ∧ e = .getString "log_level"
        (env.GetString "log_level" (env.SetupConfig st.confFilePath st.world).2).1) := by
  unfold configEvents
  split_ifs with h <;> simp [h]

@[simp]
theorem mem_multipleNotice (cs : List C) (e : Event C A P) :
    e ∈ (multipleNotice cs : List (Event C A P)) ↔
      1 < cs.length ∧ e = .print "Multiple check instances found, running each of them\n" := by
  unfold multipleNotice
  split_ifs with h <;> simp [h]

@[simp]
theorem configEvents_stage (env : Env W C A P F) (st : St W C A P) :
    (configEvents env st).filterMap Event.stage = [0] := by
  unfold configEvents; split_ifs <;> simp [Event.stage]

@[simp]
theorem configEvents_phase (env : Env W C A P F) (st : St W C A P) :
    (configEvents env st).filterMap Event.phase = [] := by
  unfold configEvents; split_ifs <;> simp [Event.phase]

@[simp]
theorem configEvents_printed (env : Env W C A P F) (st : St W C A P) :
    (configEvents env st).filterMap Event.printed = [] := by
  unfold configEvents; split_ifs <;> simp [Event.printed]

@[simp]
theorem configEvents_statusArg (env : Env W C A P F) (st : St W C A P) :
    (configEvents env st).filterMap Event.statusArg = [] := by
  unfold configEvents; split_ifs <;> simp [Event.statusArg]

@[simp]
theorem configEvents_runOf (env : Env W C A P F) (st : St W C A P) :
    (configEvents env st).filterMap Event.runOf = [] := by
  unfold configEvents; split_ifs <;> simp [Event.runOf]

@[simp]
theorem configEvents_loggerLevel (env : Env W C A P F) (st : St W C A P) :
    (configEvents env st).filterMap Event.loggerLevel = [] := by
  unfold configEvents; split_ifs <;> simp [Event.loggerLevel]

@[simp]
theorem multipleNotice_stage (cs : List C) :
    (multipleNotice cs : List (Event C A P)).filterMap Event.stage = [] := by
  unfold multipleNotice; split_ifs <;> simp [Event.stage]

@[simp]
theorem multipleNotice_phase (cs : List C) :
    (multipleNotice cs : List (Event C A P)).filterMap Event.phase = [] := by
  unfold multipleNotice; split_ifs <;> simp [Event.phase]

@[simp]
theorem multipleNotice_statusArg (cs : List C) :
    (multipleNotice cs : List (Event C A P)).filterMap Event.statusArg = [] := by
  unfold multipleNotice; split_ifs <;> simp [Event.statusArg]

@[simp]
theorem multipleNotice_runOf (cs : List C) :
    (multipleNotice cs : List (Event C A P)).filterMap Event.runOf = [] := by
  unfold multipleNotice; split_ifs <;> simp [Event.runOf]

@[simp]
theorem multipleNotice_loggerLevel (cs : List C) :
    (multipleNotice cs : List (Event C A P)).filterMap Event.loggerLevel = [] := by
  unfold multipleNotice; split_ifs <;> simp [Event.loggerLevel]

/-- An event that is in the log of the success case and has a bootstrap rank
(below 8) is one of the bootstrap events listed. -/
theorem mem_success_log {env : Env W C A P F} {st : St W C A P} {h : String} {agg : A}
    {confd a : String} {cs : List C} {evs : List (Event C A P)}
    (hl : LoopLog st.checkRate st.checkDelay cs evs) {e : Event C A P} {n : Nat}
    (hs : e.stage = some n) (hn : n ≠ 8)
    (he : e ∈ configEvents env st ++
        ([.setupLogger (resolvedLevel env st) none, .getHostname (h, none), .taggerInit none] ++
        (lookupEvents h agg confd a cs ++ (multipleNotice cs ++ evs)))) :
    e ∈ ([.setupConfig st.confFilePath none, .setupLogger (resolvedLevel env st) none,
      .getHostname (h, none), .taggerInit none, .newSerializer,
      .initAggregator h 10000000000 agg, .setupAutoConfig confd,
      .getChecksByName a cs] : List (Event C A P)) := by
  simp only [List.mem_append] at he
  rcases he with he | he | he | he | he
  · rcases (mem_configEvents env st e).mp he with rfl | ⟨-, rfl⟩
    · simp
    · simp [Event.stage] at hs
  · simp at he; rcases he with rfl | rfl | rfl <;> simp
  · simp [lookupEvents] at he
    rcases he with rfl | rfl | rfl | rfl | rfl <;> simp [Event.stage] at hs ⊢
  · obtain ⟨-, rfl⟩ := (mem_multipleNotice cs e).mp he
    simp [Event.stage] at hs
  · exact absurd (hl.stage_eq he hs) hn

/-- C1: `runCheck` invokes `c.Run()` exactly twice when `checkRate` is true and
exactly once when it is false, on `c` and on no other instance; the accumulator
returned is the one of `c` and holds exactly one entry per invocation, in
invocation order: entry by entry, the error is the one that `Run()` returned,
the warnings and the metric statistics are the ones the queries of that
invocation returned. -/
theorem runCheck_invocations (env : Env W C A P F) (c : C) (agg : A) (st : St W C A P) :
    ∃ evs : List (Event C A P),
      (runCheck env c agg st).2.out = st.out ++ evs ∧
      (evs.filterMap Event.runOf).map Prod.fst = List.replicate (if st.checkRate then 2 else 1) c ∧
      (runCheck env c agg st).1.check = c ∧
      (runCheck env c agg st).1.entries.length = (if st.checkRate then 2 else 1) ∧
      (runCheck env c agg st).1.entries.map (fun e => e.err) =
        (evs.filterMap Event.runOf).map Prod.snd ∧
      (runCheck env c agg st).1.entries.map (fun e => e.warnings) =
        evs.filterMap Event.warningsOf ∧
      (runCheck env c agg st).1.entries.map (fun e => e.metricStats) =
        (evs.filterMap Event.metricStatsOf).map Prod.fst := by
  obtain ⟨evs, es, h1, h2, h3, h4, h5, h7, h8, -⟩ :=
    runCheckLoop_spec env c (if st.checkRate then 2 else 1) (NewStats c, st)
  have h3' : (runCheck env c agg st).1.entries = es := by
    simpa [runCheck, NewStats] using h3
  refine ⟨evs, h1, ?_, h2, ?_, ?_, ?_, ?_⟩
  · rw [h5, List.map_map, ← h4]
    exact List.eq_replicate_iff.mpr ⟨by simp, by simp⟩
  · rw [h3', h4]
  · rw [h3', h5, List.map_map]; rfl
  · rw [h3', h8]
  · rw [h3', h7]

/-- C2: if the bootstrap succeeds and `GetChecksByName` returns an empty
sequence (the log then holds that call with that result), the command prints
"no check found" and nothing else, returns the error "no check found", and
invokes no `Run()`, no accessor of the aggregator and no status renderer. -/
theorem no_check_found (env : Env W C A P F) (args : List String) (st : St W C A P)
    (h0 : st.out = []) (name : String)
    (h : Event.getChecksByName name [] ∈ (RunE env args st).2.out) :
    (RunE env args st).1 = some (Errorf "no check found") ∧
    (RunE env args st).1 ≠ none ∧
    (RunE env args st).2.out.filterMap Event.printed = ["no check found\n"] ∧
    (RunE env args st).2.out.getLast? = some (.print "no check found\n") ∧
    (RunE env args st).2.out.filterMap Event.phase = [] := by
  rcases RunE_shape env args st h0 with
    ⟨e, h2, h3⟩ | ⟨e, h2, h3⟩ | ⟨h1, h2, h3⟩ | ⟨a, rest, hn, e, h1, h2, h3⟩ |
    ⟨a, rest, hn, e, h1, h2, h3⟩ | ⟨a, rest, hn, agg, confd, h1, h2, h3⟩ |
    ⟨a, rest, hn, agg, confd, cs, evs, h1, hcs, h2, h3, h5⟩
  · rw [h3] at h; simp at h
  · rw [h3] at h; simp at h
  · rw [h3] at h; simp at h
  · rw [h3] at h; simp at h
  · rw [h3] at h; simp at h
  · refine ⟨h2, by rw [h2]; simp, ?_, ?_, ?_⟩
    · rw [h3]; simp [List.filterMap_append, lookupEvents, Event.printed]
    · rw [h3]
      rw [← List.append_assoc, ← List.append_assoc, List.getLast?_concat]
    · rw [h3]; simp [List.filterMap_append, lookupEvents, Event.phase]
  · rw [h3] at h
    have := mem_success_log h5 (e := .getChecksByName name []) (n := 7) rfl (by decide) h
    simp at this
    exact absurd this.2 hcs

/-- The log of an execution in which the check lookup returned `cs`. -/
theorem located_log (env : Env W C A P F) (args : List String) (st : St W C A P)
    (h0 : st.out = []) (name : String) (cs : List C) (hcs : cs ≠ [])
    (h : Event.getChecksByName name cs ∈ (RunE env args st).2.out) :
    (RunE env args st).1 = none ∧
    ∃ (pre evs : List (Event C A P)),
      (RunE env args st).2.out = pre ++ evs ∧
      pre.filterMap Event.phase = [] ∧ pre.filterMap Event.statusArg = [] ∧
      pre.filterMap Event.runOf = [] ∧
      LoopLog st.checkRate st.checkDelay cs evs := by
  rcases RunE_shape env args st h0 with
    ⟨e, h2, h3⟩ | ⟨e, h2, h3⟩ | ⟨h1, h2, h3⟩ | ⟨a, rest, hn, e, h1, h2, h3⟩ |
    ⟨a, rest, hn, e, h1, h2, h3⟩ | ⟨a, rest, hn, agg, confd, h1, h2, h3⟩ |
    ⟨a, rest, hn, agg, confd, cs', evs, h1, hcs', h2, h3, h5⟩
  · rw [h3] at h; simp at h
  · rw [h3] at h; simp at h
  · rw [h3] at h; simp at h
  · rw [h3] at h; simp at h
  · rw [h3] at h; simp at h
  · rw [h3] at h; simp [lookupEvents] at h
    exact absurd h.2 hcs
  · rw [h3] at h
    have := mem_success_log h5 (e := .getChecksByName name cs) (n := 7) rfl (by decide) h
    simp at this
    obtain ⟨-, rfl⟩ := this
    refine ⟨h2, configEvents env st ++
        ([.setupLogger (resolvedLevel env st) none, .getHostname (hn, none), .taggerInit none] ++
        (lookupEvents hn agg confd a cs ++ multipleNotice cs)), evs, ?_, ?_, ?_, ?_, h5⟩
    · rw [h3]; simp only [List.append_assoc]
    · simp [List.filterMap_append, lookupEvents, Event.phase]
    · simp [List.filterMap_append, lookupEvents, Event.statusArg]
    · simp [List.filterMap_append, lookupEvents, Event.runOf]

/-- C3: when the check lookup returns a non-empty sequence `cs`, whatever the
`Run()` calls return, the command returns nil; every instance is invoked,
drained and status-rendered, in the order of `cs`; the accumulators `ss` handed
to the status renderer are one per instance, each with one entry per
invocation, and the `Run()` invocations of the log, with the errors they
returned, are exactly the entries of these accumulators, in order and
unchanged. -/
theorem run_errors_isolated (env : Env W C A P F) (args : List String) (st : St W C A P)
    (h0 : st.out = []) (name : String) (cs : List C) (hcs : cs ≠ [])
    (h : Event.getChecksByName name cs ∈ (RunE env args st).2.out) :
    (RunE env args st).1 = none ∧
    (RunE env args st).2.out.filterMap Event.phase =
      cs.flatMap (instancePhases (if st.checkRate then 2 else 1)
        (wrapInt64 (st.checkDelay * Millisecond))) ∧
    ∃ ss : List (Stats C),
      (RunE env args st).2.out.filterMap Event.statusArg = ss ∧
      ss.map (fun s => s.check) = cs ∧
      (∀ s ∈ ss, s.entries.length = (if st.checkRate then 2 else 1)) ∧
      (RunE env args st).2.out.filterMap Event.runOf =
        ss.flatMap (fun s => s.entries.map (fun e => (s.check, e.err))) := by
  obtain ⟨h1, pre, evs, h2, p1, p2, p3, ss, l1, -, l3, l4, l5, l6, -, -⟩ :=
    located_log env args st h0 name cs hcs h
  refine ⟨h1, ?_, ss, ?_, l4, l5, ?_⟩
  · rw [h2, List.filterMap_append, p1, l1, List.nil_append]
  · rw [h2, List.filterMap_append, p2, l3, List.nil_append]
  · rw [h2, List.filterMap_append, p3, l6, List.nil_append]

/-- C3 at a concrete execution: the one instance of `qux` fails in `Run()`, the
command still returns nil and the failure is in the log. -/
theorem run_errors_isolated_witness :
    (Demo.st "" false 0 "").out = [] ∧
    Event.getChecksByName "qux" ["qux:0"] ∈
      (RunE (Demo.env "") ["qux"] (Demo.st "" false 0 "")).2.out ∧
    (RunE (Demo.env "") ["qux"] (Demo.st "" false 0 "")).1 = none ∧
    (RunE (Demo.env "") ["qux"] (Demo.st "" false 0 "")).2.out.filterMap Event.runOf =
      [("qux:0", some ⟨"run failed"⟩)] :=
  ⟨rfl, by decide,
    (run_errors_isolated (Demo.env "") ["qux"] (Demo.st "" false 0 "") rfl "qux" ["qux:0"]
      (by decide) (by decide)).1, by decide⟩

/-- A value in the range of `int64` is left alone by the wrap-around. -/
theorem wrapInt64_of_range (x : Int) (h1 : -2 ^ 63 ≤ x) (h2 : x < 2 ^ 63) : wrapInt64 x = x := by
  unfold wrapInt64
  norm_num at *
  omega

/-- C9, as the code has it: when the check lookup returns `cs` and the delay in
nanoseconds, `checkDelay * 1000000`, fits a signed 64-bit `time.Duration`, the
instances are processed in the order of `cs`, and the steps of each instance
are its `Run()` invocations (two in rate mode, else one), then one sleep of
`checkDelay` milliseconds, then one drain (the four reads), then one status
render; nothing of a later instance comes before the render of an earlier
one. -/
theorem instance_protocol (env : Env W C A P F) (args : List String) (st : St W C A P)
    (h0 : st.out = []) (name : String) (cs : List C) (hcs : cs ≠ [])
    (h : Event.getChecksByName name cs ∈ (RunE env args st).2.out)
    (hlo : -2 ^ 63 ≤ st.checkDelay * 1000000) (hhi : st.checkDelay * 1000000 < 2 ^ 63) :
    (RunE env args st).2.out.filterMap Event.phase =
      cs.flatMap (instancePhases (if st.checkRate then 2 else 1)
        (st.checkDelay * Millisecond)) := by
  obtain ⟨-, pre, evs, h2, p1, -, -, ss, l1, -⟩ :=
    located_log env args st h0 name cs hcs h
  rw [h2, List.filterMap_append, p1, l1, List.nil_append,
    wrapInt64_of_range (st.checkDelay * Millisecond) hlo hhi]

/-- C9 (amended) at a concrete execution: two instances of `baz` in rate mode
with a delay of 100 ms. -/
theorem instance_protocol_witness :
    Event.getChecksByName "baz" ["baz:0", "baz:1"] ∈
      (RunE (Demo.env "") ["baz"] (Demo.st "" true 100 "")).2.out ∧
    (-2 ^ 63 ≤ (Demo.st "" true 100 "").checkDelay * 1000000 ∧
      (Demo.st "" true 100 "").checkDelay * 1000000 < 2 ^ 63) ∧
    (RunE (Demo.env "") ["baz"] (Demo.st "" true 100 "")).2.out.filterMap Event.phase =
      [.run "baz:0", .run "baz:0", .sleep 100000000, .getSeries, .getSketches,
       .getServiceChecks, .getEvents, .status "baz:0",
       .run "baz:1", .run "baz:1", .sleep 100000000, .getSeries, .getSketches,
       .getServiceChecks, .getEvents, .status "baz:1"] :=
  ⟨by decide, ⟨by decide, by decide⟩,
   instance_protocol (Demo.env "") ["baz"] (Demo.st "" true 100 "") rfl "baz"
    ["baz:0", "baz:1"] (by decide) (by decide) (by decide) (by decide)⟩

/-- C9 as stated fails: with `checkDelay = 9223372036855` the product with
`time.Millisecond` overflows `time.Duration`, and the code sleeps for a negative
duration instead of `checkDelay` milliseconds. -/
theorem sleep_delay_overflow :
    Event.getChecksByName "foo" ["foo:0"] ∈
      (RunE (Demo.env "") ["foo"] (Demo.st "" false 9223372036855 "")).2.out ∧
    (RunE (Demo.env "") ["foo"] (Demo.st "" false 9223372036855 "")).2.out.filterMap Event.phase =
      [.run "foo:0", .sleep (-9223372036854551616), .getSeries, .getSketches,
       .getServiceChecks, .getEvents, .status "foo:0"] ∧
    (RunE (Demo.env "") ["foo"] (Demo.st "" false 9223372036855 "")).2.out.filterMap Event.phase ≠
      ["foo:0"].flatMap (instancePhases 1 (9223372036855 * Millisecond)) := by
  decide

/-- C7: once the configuration is set up, logger setup is called exactly once,
and the level passed to it is the user-supplied `logLevel` when that is not
empty; otherwise the configured `log_level` (what
`config.Datadog.GetString("log_level")` returns after the setup) when the
config path is not empty; otherwise "off". -/
theorem logger_level (env : Env W C A P F) (args : List String) (st : St W C A P)
    (h0 : st.out = [])
    (h : Event.setupConfig st.confFilePath none ∈ (RunE env args st).2.out) :
    (RunE env args st).2.out.filterMap Event.loggerLevel =
      [if st.logLevel ≠ "" then st.logLevel
       else if st.confFilePath ≠ "" then
         (env.GetString "log_level" (env.SetupConfig st.confFilePath st.world).2).1
       else "off"] := by
  have hr : [if st.logLevel ≠ "" then st.logLevel
       else if st.confFilePath ≠ "" then
         (env.GetString "log_level" (env.SetupConfig st.confFilePath st.world).2).1
       else "off"] = [resolvedLevel env st] := rfl
  rw [hr]
  rcases RunE_shape env args st h0 with
    ⟨e, h2, h3⟩ | ⟨e, h2, h3⟩ | ⟨h1, h2, h3⟩ | ⟨a, rest, hn, e, h1, h2, h3⟩ |
    ⟨a, rest, hn, e, h1, h2, h3⟩ | ⟨a, rest, hn, agg, confd, h1, h2, h3⟩ |
    ⟨a, rest, hn, agg, confd, cs', evs, h1, hcs', h2, h3, ss, -, -, -, -, -, -, h5, -⟩
  · rw [h3] at h; simp at h
  · rw [h3]; simp [List.filterMap_append, Event.loggerLevel]
  · rw [h3]; simp [List.filterMap_append, Event.loggerLevel]
  · rw [h3]; simp [List.filterMap_append, Event.loggerLevel]
  · rw [h3]; simp [List.filterMap_append, Event.loggerLevel]
  · rw [h3]; simp [List.filterMap_append, Event.loggerLevel, lookupEvents]
  · rw [h3]; simp [List.filterMap_append, Event.loggerLevel, lookupEvents, h5]

/-- C7 at three concrete executions, one for each case of the rule. -/
theorem logger_level_witness :
    (Event.setupConfig "/etc/datadog" none ∈
      (RunE (Demo.env "") ["foo"] (Demo.st "/etc/datadog" false 100 "")).2.out ∧
     (RunE (Demo.env "") ["foo"] (Demo.st "/etc/datadog" false 100 "")).2.out.filterMap
        Event.loggerLevel = ["info"]) ∧
    (RunE (Demo.env "") ["foo"] (Demo.st "/etc/datadog" false 100 "debug")).2.out.filterMap
        Event.loggerLevel = ["debug"] ∧
    (RunE (Demo.env "") ["foo"] (Demo.st "" false 100 "")).2.out.filterMap
        Event.loggerLevel = ["off"] :=
  ⟨⟨by decide,
    logger_level (Demo.env "") ["foo"] (Demo.st "/etc/datadog" false 100 "") rfl (by decide)⟩,
   logger_level (Demo.env "") ["foo"] (Demo.st "/etc/datadog" false 100 "debug") rfl (by decide),
   logger_level (Demo.env "") ["foo"] (Demo.st "" false 100 "") rfl (by decide)⟩

/-- C6 as stated fails: with zero positional arguments and a configuration
setup that fails, the command returns the error and never prints the help. -/
theorem no_args_config_failure :
    (RunE (Demo.env "config") [] (Demo.st "" false 100 "")).1 = some ⟨"config failed"⟩ ∧
    Event.help ∉ (RunE (Demo.env "config") [] (Demo.st "" false 100 "")).2.out ∧
    (RunE (Demo.env "config") [] (Demo.st "" false 100 "")).2.out =
      [.setupConfig "" (some ⟨"config failed"⟩),
       .print "Cannot setup config, exiting: config failed\n"] := by
  decide

/-- C6, as the code has it: with zero positional arguments no check is run, no
sleep, drain or status render happens, and the hostname is never resolved;
and when configuration setup and logger setup succeed (the log then holds a
successful logger setup), the command prints the help as its last step, prints
nothing else, and returns nil. -/
theorem no_args_help (env : Env W C A P F) (st : St W C A P) (h0 : st.out = []) :
    (RunE env [] st).2.out.filterMap Event.phase = [] ∧
    (RunE env [] st).2.out.filterMap Event.stage <+: [0, 1] ∧
    ∀ lvl, Event.setupLogger lvl none ∈ (RunE env [] st).2.out →
      (RunE env [] st).1 = none ∧
      (RunE env [] st).2.out =
        configEvents env st ++ [.setupLogger (resolvedLevel env st) none, .help] ∧
      (RunE env [] st).2.out.filterMap Event.printed = [] := by
  rcases RunE_shape env [] st h0 with
    ⟨e, h2, h3⟩ | ⟨e, h2, h3⟩ | ⟨h1, h2, h3⟩ | ⟨a, rest, hn, e, h1, h2, h3⟩ |
    ⟨a, rest, hn, e, h1, h2, h3⟩ | ⟨a, rest, hn, agg, confd, h1, h2, h3⟩ |
    ⟨a, rest, hn, agg, confd, cs', evs, h1, hcs', h2, h3, h5⟩
  · rw [h3]
    refine ⟨by simp [Event.phase], by simp [Event.stage], fun lvl h => ?_⟩
    simp at h
  · rw [h3]
    refine ⟨by simp [List.filterMap_append, Event.phase],
      by simp [List.filterMap_append, Event.stage], fun lvl h => ?_⟩
    simp at h
  · rw [h3]
    exact ⟨by simp [List.filterMap_append, Event.phase],
      by simp [List.filterMap_append, Event.stage], fun lvl _ =>
      ⟨h2, rfl, by simp [List.filterMap_append, Event.printed]⟩⟩
  · simp at h1
  · simp at h1
  · simp at h1
  · simp at h1

/-- C6 (amended) at a concrete execution without arguments. -/
theorem no_args_help_witness :
    Event.setupLogger "off" none ∈ (RunE (Demo.env "") [] (Demo.st "" true 100 "")).2.out ∧
    (RunE (Demo.env "") [] (Demo.st "" true 100 "")).1 = none ∧
    (RunE (Demo.env "") [] (Demo.st "" true 100 "")).2.out =
      [.setupConfig "" none, .setupLogger "off" none, .help] :=
  ⟨by decide,
   ((no_args_help (Demo.env "") (Demo.st "" true 100 "") rfl).2.2 "off" (by decide)).1,
   ((no_args_help (Demo.env "") (Demo.st "" true 100 "") rfl).2.2 "off" (by decide)).2.1⟩

/-- The part of C5 for configuration setup. -/
theorem config_failure_aborts (env : Env W C A P F) (args : List String) (st : St W C A P)
    (h0 : st.out = []) (e : GoError) (p : String)
    (h : Event.setupConfig p (some e) ∈ (RunE env args st).2.out) :
    (RunE env args st).1 = some e ∧
    (RunE env args st).2.out.filterMap Event.printed =
      ["Cannot setup config, exiting: " ++ e.msg ++ "\n"] ∧
    (RunE env args st).2.out.filterMap Event.stage = [0] ∧
    (RunE env args st).2.out.filterMap Event.phase = [] := by
  rcases RunE_shape env args st h0 with
    ⟨e', h2, h3⟩ | ⟨e', h2, h3⟩ | ⟨h1, h2, h3⟩ | ⟨a, rest, hn, e', h1, h2, h3⟩ |
    ⟨a, rest, hn, e', h1, h2, h3⟩ | ⟨a, rest, hn, agg, confd, h1, h2, h3⟩ |
    ⟨a, rest, hn, agg, confd, cs', evs, h1, hcs', h2, h3, h5⟩
  · rw [h3] at h ⊢
    simp at h
    obtain ⟨-, rfl⟩ := h
    exact ⟨h2, by simp [Event.printed], by simp [Event.stage], by simp [Event.phase]⟩
  · rw [h3] at h; simp at h
  · rw [h3] at h; simp at h
  · rw [h3] at h; simp at h
  · rw [h3] at h; simp at h
  · rw [h3] at h; simp [lookupEvents] at h
  · rw [h3] at h
    have := mem_success_log h5 (e := .setupConfig p (some e)) (n := 0) rfl (by decide) h
    simp at this

/-- The part of C5 for logger setup. -/
theorem logger_failure_aborts (env : Env W C A P F) (args : List String) (st : St W C A P)
    (h0 : st.out = []) (e : GoError) (lvl : String)
    (h : Event.setupLogger lvl (some e) ∈ (RunE env args st).2.out) :
    (RunE env args st).1 = some e ∧
    (RunE env args st).2.out.filterMap Event.printed =
      ["Cannot setup logger, exiting: " ++ e.msg ++ "\n"] ∧
    (RunE env args st).2.out.filterMap Event.stage = [0, 1] ∧
    (RunE env args st).2.out.filterMap Event.phase = [] := by
  rcases RunE_shape env args st h0 with
    ⟨e', h2, h3⟩ | ⟨e', h2, h3⟩ | ⟨h1, h2, h3⟩ | ⟨a, rest, hn, e', h1, h2, h3⟩ |
    ⟨a, rest, hn, e', h1, h2, h3⟩ | ⟨a, rest, hn, agg, confd, h1, h2, h3⟩ |
    ⟨a, rest, hn, agg, confd, cs', evs, h1, hcs', h2, h3, h5⟩
  · rw [h3] at h; simp at h
  · rw [h3] at h ⊢
    simp at h
    obtain ⟨-, rfl⟩ := h
    exact ⟨h2, by simp [List.filterMap_append, Event.printed],
      by simp [List.filterMap_append, Event.stage],
      by simp [List.filterMap_append, Event.phase]⟩
  · rw [h3] at h; simp at h
  · rw [h3] at h; simp at h
  · rw [h3] at h; simp at h
  · rw [h3] at h; simp [lookupEvents] at h
  · rw [h3] at h
    have := mem_success_log h5 (e := .setupLogger lvl (some e)) (n := 1) rfl (by decide) h
    simp at this

/-- The part of C5 for hostname resolution. -/
theorem hostname_failure_aborts (env : Env W C A P F) (args : List String) (st : St W C A P)
    (h0 : st.out = []) (e : GoError) (name : String)
    (h : Event.getHostname (name, some e) ∈ (RunE env args st).2.out) :
    (RunE env args st).1 = some e ∧
    (RunE env args st).2.out.filterMap Event.printed =
      ["Cannot get hostname, exiting: " ++ e.msg ++ "\n"] ∧
    (RunE env args st).2.out.filterMap Event.stage = [0, 1, 2] ∧
    (RunE env args st).2.out.filterMap Event.phase = [] := by
  rcases RunE_shape env args st h0 with
    ⟨e', h2, h3⟩ | ⟨e', h2, h3⟩ | ⟨h1, h2, h3⟩ | ⟨a, rest, hn, e', h1, h2, h3⟩ |
    ⟨a, rest, hn, e', h1, h2, h3⟩ | ⟨a, rest, hn, agg, confd, h1, h2, h3⟩ |
    ⟨a, rest, hn, agg, confd, cs', evs, h1, hcs', h2, h3, h5⟩
  · rw [h3] at h; simp at h
  · rw [h3] at h; simp at h
  · rw [h3] at h; simp at h
  · rw [h3] at h ⊢
    simp at h
    obtain ⟨-, rfl⟩ := h
    exact ⟨h2, by simp [List.filterMap_append, Event.printed],
      by simp [List.filterMap_append, Event.stage],
      by simp [List.filterMap_append, Event.phase]⟩
  · rw [h3] at h; simp at h
  · rw [h3] at h; simp [lookupEvents] at h
  · rw [h3] at h
    have := mem_success_log h5 (e := .getHostname (name, some e)) (n := 2) rfl (by decide) h
    simp at this

/-- The part of C5 for tagger init. -/
theorem tagger_failure_aborts (env : Env W C A P F) (args : List String) (st : St W C A P)
    (h0 : st.out = []) (e : GoError)
    (h : Event.taggerInit (some e) ∈ (RunE env args st).2.out) :
    (RunE env args st).1 = some e ∧
    (RunE env args st).2.out.filterMap Event.printed =
      ["Unable to start tagging system: " ++ e.msg] ∧
    (RunE env args st).2.out.filterMap Event.stage = [0, 1, 2, 3] ∧
    (RunE env args st).2.out.filterMap Event.phase = [] := by
  rcases RunE_shape env args st h0 with
    ⟨e', h2, h3⟩ | ⟨e', h2, h3⟩ | ⟨h1, h2, h3⟩ | ⟨a, rest, hn, e', h1, h2, h3⟩ |
    ⟨a, rest, hn, e', h1, h2, h3⟩ | ⟨a, rest, hn, agg, confd, h1, h2, h3⟩ |
    ⟨a, rest, hn, agg, confd, cs', evs, h1, hcs', h2, h3, h5⟩
  · rw [h3] at h; simp at h
  · rw [h3] at h; simp at h
  · rw [h3] at h; simp at h
  · rw [h3] at h; simp at h
  · rw [h3] at h ⊢
    simp at h
    subst h
    exact ⟨h2, by simp [List.filterMap_append, Event.printed],
      by simp [List.filterMap_append, Event.stage],
      by simp [List.filterMap_append, Event.phase]⟩
  · rw [h3] at h; simp [lookupEvents] at h
  · rw [h3] at h
    have := mem_success_log h5 (e := .taggerInit (some e)) (n := 3) rfl (by decide) h
    simp at this

/-- C5: if a fallible bootstrap step returns an error `e` (the log then holds
that call with that result), the command returns exactly `e`, writes to
standard output exactly one diagnostic, the prefix of the step followed by the
text of `e`, and performs no later bootstrap step, no check lookup, and no
`Run()`, sleep, drain or status render. The steps are, in turn, configuration
setup, logger setup, hostname resolution and tagger init; the diagnostic of the
first three ends with a newline, the one of the tagger does not. -/
theorem bootstrap_failure_aborts (env : Env W C A P F) (args : List String)
    (st : St W C A P) (h0 : st.out = []) (e : GoError) :
    (∀ path, Event.setupConfig path (some e) ∈ (RunE env args st).2.out →
      (RunE env args st).1 = some e ∧
      (RunE env args st).2.out.filterMap Event.printed =
        ["Cannot setup config, exiting: " ++ e.msg ++ "\n"] ∧
      (RunE env args st).2.out.filterMap Event.stage = [0] ∧
      (RunE env args st).2.out.filterMap Event.phase = []) ∧
    (∀ level, Event.setupLogger level (some e) ∈ (RunE env args st).2.out →
      (RunE env args st).1 = some e ∧
      (RunE env args st).2.out.filterMap Event.printed =
        ["Cannot setup logger, exiting: " ++ e.msg ++ "\n"] ∧
      (RunE env args st).2.out.filterMap Event.stage = [0, 1] ∧
      (RunE env args st).2.out.filterMap Event.phase = []) ∧
    (∀ name, Event.getHostname (name, some e) ∈ (RunE env args st).2.out →
      (RunE env args st).1 = some e ∧
      (RunE env args st).2.out.filterMap Event.printed =
        ["Cannot get hostname, exiting: " ++ e.msg ++ "\n"] ∧
      (RunE env args st).2.out.filterMap Event.stage = [0, 1, 2] ∧
      (RunE env args st).2.out.filterMap Event.phase = []) ∧
    (Event.taggerInit (some e) ∈ (RunE env args st).2.out →
      (RunE env args st).1 = some e ∧
      (RunE env args st).2.out.filterMap Event.printed =
        ["Unable to start tagging system: " ++ e.msg] ∧
      (RunE env args st).2.out.filterMap Event.stage = [0, 1, 2, 3] ∧
      (RunE env args st).2.out.filterMap Event.phase = []) :=
  ⟨fun path h => config_failure_aborts env args st h0 e path h,
   fun level h => logger_failure_aborts env args st h0 e level h,
   fun name h => hostname_failure_aborts env args st h0 e name h,
   fun h => tagger_failure_aborts env args st h0 e h⟩

/-- C5 at four concrete executions, one for each failing step. -/
theorem bootstrap_failure_aborts_witness :
    (Event.setupConfig "" (some ⟨"config failed"⟩) ∈
        (RunE (Demo.env "config") ["foo"] (Demo.st "" false 100 "")).2.out ∧
      (RunE (Demo.env "config") ["foo"] (Demo.st "" false 100 "")).1 =
        some ⟨"config failed"⟩) ∧
    (Event.setupLogger "off" (some ⟨"logger failed"⟩) ∈
        (RunE (Demo.env "logger") ["foo"] (Demo.st "" false 100 "")).2.out ∧
      (RunE (Demo.env "logger") ["foo"] (Demo.st "" false 100 "")).1 =
        some ⟨"logger failed"⟩) ∧
    (Event.getHostname ("", some ⟨"hostname failed"⟩) ∈
        (RunE (Demo.env "hostname") ["foo"] (Demo.st "" false 100 "")).2.out ∧
      (RunE (Demo.env "hostname") ["foo"] (Demo.st "" false 100 "")).1 =
        some ⟨"hostname failed"⟩) ∧
    (Event.taggerInit (some ⟨"tagger failed"⟩) ∈
        (RunE (Demo.env "tagger") ["foo"] (Demo.st "" false 100 "")).2.out ∧
      (RunE (Demo.env "tagger") ["foo"] (Demo.st "" false 100 "")).2.out.filterMap
        Event.printed = ["Unable to start tagging system: tagger failed"]) :=
  ⟨⟨by decide, ((bootstrap_failure_aborts (Demo.env "config") ["foo"]
      (Demo.st "" false 100 "") rfl ⟨"config failed"⟩).1 "" (by decide)).1⟩,
   ⟨by decide, ((bootstrap_failure_aborts (Demo.env "logger") ["foo"]
      (Demo.st "" false 100 "") rfl ⟨"logger failed"⟩).2.1 "off" (by decide)).1⟩,
   ⟨by decide, ((bootstrap_failure_aborts (Demo.env "hostname") ["foo"]
      (Demo.st "" false 100 "") rfl ⟨"hostname failed"⟩).2.2.1 "" (by decide)).1⟩,
   ⟨by decide, ((bootstrap_failure_aborts (Demo.env "tagger") ["foo"]
      (Demo.st "" false 100 "") rfl ⟨"tagger failed"⟩).2.2.2 (by decide)).2.1⟩⟩

/-- In a prefix of the bootstrap order, every rank is preceded by all the
ranks below it. -/
theorem stageOrder_precede {l : List Nat} {k : Nat} (hp : l <+: stageOrder k)
    {l1 l2 : List Nat} {i j : Nat} (hl : l = l1 ++ j :: l2) (hij : i < j) : i ∈ l1 := by
  obtain ⟨t, ht⟩ := hp
  subst hl
  have key : l1 ++ (j :: (l2 ++ t)) = List.range 8 ++ List.replicate k 8 := by
    simpa [stageOrder] using ht
  rcases List.append_eq_append_iff.mp key with ⟨a', h1, h2⟩ | ⟨c', h1, h2⟩
  · cases a' with
    | nil =>
      have hj : j ∈ List.replicate k 8 := by
        have : j ∈ j :: (l2 ++ t) := List.mem_cons_self _ _
        rw [h2] at this
        simpa using this
      have hj8 : j = 8 := (List.mem_replicate.mp hj).2
      have hl1 : l1 = List.range 8 := by simpa using h1.symm
      rw [hl1, List.mem_range]
      omega
    | cons b a'' =>
      have hb : j = b := by
        have := h2
        simp only [List.cons_append] at this
        exact (List.cons.inj this).1
      subst hb
      have hpw := List.pairwise_lt_range 8
      rw [h1, List.pairwise_append, List.pairwise_cons] at hpw
      have hj8 : j < 8 := by
        have : j ∈ List.range 8 := by rw [h1]; simp
        exact List.mem_range.mp this
      have hi : i ∈ List.range 8 := List.mem_range.mpr (by omega)
      rw [h1] at hi
      rcases List.mem_append.mp hi with hi | hi
      · exact hi
      · rcases List.mem_cons.mp hi with hi | hi
        · omega
        · have := hpw.2.1.1 i hi
          omega
  · have hj : j ∈ List.replicate k 8 := by
      rw [h2]; simp
    have hj8 : j = 8 := (List.mem_replicate.mp hj).2
    rw [h1]
    exact List.mem_append_left _ (List.mem_range.mpr (by omega))

/-- The ranks in the log of any execution are a prefix of the bootstrap
order. -/
theorem RunE_stages (env : Env W C A P F) (args : List String) (st : St W C A P)
    (h0 : st.out = []) :
    ∃ k, (RunE env args st).2.out.filterMap Event.stage <+: stageOrder k := by
  rcases RunE_shape env args st h0 with
    ⟨e, h2, h3⟩ | ⟨e, h2, h3⟩ | ⟨h1, h2, h3⟩ | ⟨a, rest, hn, e, h1, h2, h3⟩ |
    ⟨a, rest, hn, e, h1, h2, h3⟩ | ⟨a, rest, hn, agg, confd, h1, h2, h3⟩ |
    ⟨a, rest, hn, agg, confd, cs, evs, h1, hcs, h2, h3, ss, -, h5, -⟩
  · exact ⟨0, by rw [h3]; simp [Event.stage]; decide⟩
  · exact ⟨0, by rw [h3]; simp [List.filterMap_append, Event.stage]; decide⟩
  · exact ⟨0, by rw [h3]; simp [List.filterMap_append, Event.stage]; decide⟩
  · exact ⟨0, by rw [h3]; simp [List.filterMap_append, Event.stage]; decide⟩
  · exact ⟨0, by rw [h3]; simp [List.filterMap_append, Event.stage]; decide⟩
  · exact ⟨0, by rw [h3]; simp [List.filterMap_append, Event.stage, lookupEvents]; decide⟩
  · refine ⟨cs.length * (if st.checkRate then 2 else 1), ?_⟩
    rw [h3]
    simp only [List.filterMap_append, configEvents_stage, multipleNotice_stage, h5,
      lookupEvents]
    simp [Event.stage, stageOrder, List.range_succ]

/-- C4: in every execution with at least one positional argument, the help is
never printed, and the ranked events of the log (configuration setup 0, logger
setup 1, hostname resolution 2, tagger init 3, serializer construction 4,
aggregator init 5, auto-discovery setup 6, check lookup 7, every `Run()` 8) are
a prefix of 0, 1, ..., 7, 8, ..., 8: each bootstrap step occurs at most once, in
this order and without a gap. So every ranked event is strictly preceded by an
event of each lower rank: aggregator init by tagger init, auto-discovery setup
by aggregator init, and every `Run()` by aggregator init (and by all the other
bootstrap steps). -/
theorem bootstrap_order (env : Env W C A P F) (args : List String) (st : St W C A P)
    (h0 : st.out = []) (hargs : args ≠ []) :
    Event.help ∉ (RunE env args st).2.out ∧
    (∃ k, (RunE env args st).2.out.filterMap Event.stage <+: stageOrder k) ∧
    ∀ (pre post : List (Event C A P)) (e : Event C A P) (i j : Nat),
      (RunE env args st).2.out = pre ++ e :: post → e.stage = some j → i < j →
        ∃ e' ∈ pre, e'.stage = some i := by
  refine ⟨?_, RunE_stages env args st h0, ?_⟩
  · intro h
    rcases RunE_shape env args st h0 with
      ⟨e, h2, h3⟩ | ⟨e, h2, h3⟩ | ⟨h1, h2, h3⟩ | ⟨a, rest, hn, e, h1, h2, h3⟩ |
      ⟨a, rest, hn, e, h1, h2, h3⟩ | ⟨a, rest, hn, agg, confd, h1, h2, h3⟩ |
      ⟨a, rest, hn, agg, confd, cs, evs, h1, hcs, h2, h3, ss, -, -, -, -, -, -, -, hh⟩
    · rw [h3] at h; simp at h
    · rw [h3] at h; simp at h
    · exact hargs h1
    · rw [h3] at h; simp at h
    · rw [h3] at h; simp at h
    · rw [h3] at h; simp [lookupEvents] at h
    · rw [h3] at h; simp [lookupEvents] at h
      exact hh h
  · intro pre post e i j hout hs hij
    obtain ⟨k, hk⟩ := RunE_stages env args st h0
    rw [hout, List.filterMap_append, List.filterMap_cons_some hs] at hk
    have hi := stageOrder_precede hk rfl hij
    obtain ⟨e', he', hs'⟩ := List.mem_filterMap.mp hi
    exact ⟨e', he', hs'⟩

/-- C4 at a concrete execution: one instance of `foo` in rate mode. -/
theorem bootstrap_order_witness :
    (["foo"] : List String) ≠ [] ∧
    Event.help ∉ (RunE (Demo.env "") ["foo"] (Demo.st "" true 100 "")).2.out ∧
    (RunE (Demo.env "") ["foo"] (Demo.st "" true 100 "")).2.out.filterMap Event.stage =
      [0, 1, 2, 3, 4, 5, 6, 7, 8, 8] ∧
    ∃ k, (RunE (Demo.env "") ["foo"] (Demo.st "" true 100 "")).2.out.filterMap Event.stage <+:
      stageOrder k :=
  ⟨by decide,
   (bootstrap_order (Demo.env "") ["foo"] (Demo.st "" true 100 "") rfl (by decide)).1,
   by decide,
   (bootstrap_order (Demo.env "") ["foo"] (Demo.st "" true 100 "") rfl (by decide)).2.1⟩

/-- C2 at a concrete execution: the catalog has no check named `bar`. -/
theorem no_check_found_witness :
    (Demo.st "" false 100 "").out = [] ∧
    Event.getChecksByName "bar" [] ∈
      (RunE (Demo.env "") ["bar"] (Demo.st "" false 100 "")).2.out ∧
    (RunE (Demo.env "") ["bar"] (Demo.st "" false 100 "")).1 = some (Errorf "no check found") ∧
    (RunE (Demo.env "") ["bar"] (Demo.st "" false 100 "")).2.out.filterMap Event.printed =
      ["no check found\n"] :=
  ⟨rfl, by decide,
   (no_check_found (Demo.env "") ["bar"] (Demo.st "" false 100 "") rfl "bar" (by decide)).1,
   (no_check_found (Demo.env "") ["bar"] (Demo.st "" false 100 "") rfl "bar" (by decide)).2.2.1⟩

/-- C8: `getMetrics` reads the four buffers in the order series, sketches,
service checks, events, whatever they hold; right after reading a buffer it
prints the label of that buffer and then the JSON of the buffer, marshalled
with empty prefix and two-space indent, if and only if the buffer is not
empty, and prints nothing else; when the four buffers are empty it prints
nothing. -/
theorem getMetrics_sections (env : Env W C A P F) (agg : A) (st : St W C A P) :
    ∃ b1 b2 b3 b4 : List P,
      (getMetrics env agg st).out = st.out ++
        ([.getSeries agg b1] ++ renderSection env "Series: " b1 ++
         [.getSketches agg b2] ++ renderSection env "Sketches: " b2 ++
         [.getServiceChecks agg b3] ++ renderSection env "Service Checks: " b3 ++
         [.getEvents agg b4] ++ renderSection env "Events: " b4) ∧
      (∀ (label : String) (b : List P),
        (b = [] → renderSection env label b = []) ∧
        (b ≠ [] → renderSection env label b =
          [.print (label ++ "\n"), .print ((env.MarshalIndent b "" "  ").1 ++ "\n")])) ∧
      (b1 = [] → b2 = [] → b3 = [] → b4 = [] →
        (getMetrics env agg st).out.filterMap Event.printed =
          st.out.filterMap Event.printed) := by
  obtain ⟨b1, b2, b3, b4, h⟩ := getMetrics_out env agg st
  refine ⟨b1, b2, b3, b4, h, ?_, ?_⟩
  · intro label b
    exact ⟨fun hb => by simp [renderSection, hb], fun hb => by simp [renderSection, hb]⟩
  · intro e1 e2 e3 e4
    rw [h, e1, e2, e3, e4]
    simp [renderSection, List.filterMap_append, Event.printed]

/-- C8 at two concrete aggregators: an empty one, and one that holds two series
and one event. -/
theorem getMetrics_sections_witness :
    (getMetrics (Demo.env "") () (Demo.st "" false 100 "")).out.filterMap Event.printed = [] ∧
    (getMetrics (Demo.env "") ()
      { Demo.st "" false 100 "" with world := ⟨0, ["a", "b"], ["e"], 2⟩ }).out =
      [.getSeries () ["a", "b"], .print "Series: \n", .print "[\n  a\n  b\n]\n",
       .getSketches () [], .getServiceChecks () [],
       .getEvents () ["e"], .print "Events: \n", .print "[\n  e\n]\n"] := by
  obtain ⟨b1, b2, b3, b4, h, -, h3⟩ :=
    getMetrics_sections (Demo.env "") () (Demo.st "" false 100 "")
  have hb : b1 = [] ∧ b2 = [] ∧ b3 = [] ∧ b4 = [] := by
    have h' : (getMetrics (Demo.env "") () (Demo.st "" false 100 "")).out =
        [.getSeries () [], .getSketches () [], .getServiceChecks () [], .getEvents () []] := by
      decide
    rw [h'] at h
    have hs : (Demo.st "" false 100 "").out = [] := rfl
    rw [hs] at h
    simp only [List.nil_append, List.append_assoc, List.singleton_append] at h
    injection h with e1 h
    injection e1 with _ e1
    subst e1
    simp only [renderSection, List.isEmpty_nil, ite_true, List.nil_append] at h
    injection h with e2 h
    injection e2 with _ e2
    subst e2
    simp only [List.isEmpty_nil, ite_true, List.nil_append] at h
    injection h with e3 h
    injection e3 with _ e3
    subst e3
    simp only [List.isEmpty_nil, ite_true, List.nil_append] at h
    injection h with e4 h
    injection e4 with _ e4
    subst e4
    exact ⟨rfl, rfl, rfl, rfl⟩
  exact ⟨h3 hb.1 hb.2.1 hb.2.2.1 hb.2.2.2, by decide⟩

/-- C10 as stated fails: a check whose `GetMetricStats()` returns a map that is
not empty together with an error has that map recorded, not an empty one. -/
theorem metricStats_error_snapshot_kept :
    (runCheck (Demo.env "") "qux:0" () (Demo.st "" false 100 "")).2.out.filterMap
        Event.metricStatsOf = [([("MetricSamples", 1)], some ⟨"no sender"⟩)] ∧
    (runCheck (Demo.env "") "qux:0" () (Demo.st "" false 100 "")).1.entries.map
        (fun e => e.metricStats) = [[("MetricSamples", 1)]] ∧
    (runCheck (Demo.env "") "qux:0" () (Demo.st "" false 100 "")).1.entries.map
        (fun e => e.metricStats) ≠ [[]] := by
  decide

/-- C10, as the code has it: when the `GetMetricStats()` of invocation `i`
reports an error, the error is dropped, the accumulator still gets its one
entry per invocation, and the metric statistics of entry `i` are the map that
`GetMetricStats()` returned along with the error, unchanged (so they are empty
exactly when that map is). -/
theorem metricStats_error_tolerated (env : Env W C A P F) (c : C) (agg : A)
    (st : St W C A P) (evs : List (Event C A P))
    (hout : (runCheck env c agg st).2.out = st.out ++ evs)
    (i : Nat) (m : MetricStats) (err : GoError)
    (hi : (evs.filterMap Event.metricStatsOf)[i]? = some (m, some err)) :
    (runCheck env c agg st).1.entries.length = (if st.checkRate then 2 else 1) ∧
    ∃ entry, (runCheck env c agg st).1.entries[i]? = some entry ∧
      entry.metricStats = m ∧ (entry.metricStats = [] ↔ m = []) := by
  obtain ⟨evs', es, h1, h2, h3, h4, h5, h7, -⟩ :=
    runCheckLoop_spec env c (if st.checkRate then 2 else 1) (NewStats c, st)
  have h3' : (runCheck env c agg st).1.entries = es := by
    simpa [runCheck, NewStats] using h3
  have h1' : (runCheck env c agg st).2.out = st.out ++ evs' := h1
  have he : evs = evs' := List.append_cancel_left (hout.symm.trans h1')
  subst he
  have hm : (es.map (fun e => e.metricStats))[i]? = some m := by
    rw [h7, List.getElem?_map, hi]; rfl
  rw [List.getElem?_map] at hm
  rw [h3', h4]
  refine ⟨rfl, ?_⟩
  cases hes : es[i]? with
  | none => rw [hes] at hm; simp at hm
  | some entry =>
    rw [hes] at hm
    simp only [Option.map_some', Option.some.injEq] at hm
    exact ⟨entry, rfl, hm, by rw [hm]⟩

/-- C10 (amended) at the concrete check of the counterexample. -/
theorem metricStats_error_tolerated_witness :
    ((runCheck (Demo.env "") "qux:0" () (Demo.st "" false 100 "")).2.out.filterMap
        Event.metricStatsOf)[0]? = some ([("MetricSamples", 1)], some ⟨"no sender"⟩) ∧
    (runCheck (Demo.env "") "qux:0" () (Demo.st "" false 100 "")).1.entries.length = 1 ∧
    ∃ entry, (runCheck (Demo.env "") "qux:0" () (Demo.st "" false 100 "")).1.entries[0]? =
        some entry ∧
      entry.metricStats = [("MetricSamples", 1)] ∧
      (entry.metricStats = [] ↔ [("MetricSamples", (1 : Int))] = []) :=
  ⟨by decide,
   metricStats_error_tolerated (Demo.env "") "qux:0" () (Demo.st "" false 100 "")
    (runCheck (Demo.env "") "qux:0" () (Demo.st "" false 100 "")).2.out rfl 0
    [("MetricSamples", 1)] ⟨"no sender"⟩ (by decide)⟩

end Theorems

end CheckCmd
